import Mathlib

/-!
Verification of the monster-killer-robot simulation core.

This file is a shallow embedding, in Lean 4, of the simulation core of the
repository (a turn-based 3D multi-agent simulation): the world lattice
(`environment.py`), the rule engine (`rule_engine.py`), the robot agent
(`robot.py`), the monster agent (`monster.py`) and the scheduler / collision
resolver (`realtime_3d_colab.py`).  Python dictionaries keyed by agent id are
embedded as association lists, the numpy cell array is embedded by its value
map (cells only ever transition from free `0` to empty `-1`, so the array is
represented by the lattice size together with the list of cells that were made
empty), and the process-global `random` stream is embedded as an explicit
stream of natural numbers threaded through every operation that consumes
randomness.  Fallible operations mirror the Python exception structure with
`Except`: a `try`/`except` block in the source becomes a local handler of the
corresponding error values, and an uncaught exception becomes an `Except.error`
that propagates.
-/

namespace RobotSim

/-- A lattice coordinate.  Python tuples `(x, y, z)` of possibly negative
ints (sensor targets may point outside the world). -/
abbrev Pos := Int × Int × Int

/-! ### Rule engine (`rule_engine.py`) -/

/-- The eight robot sensor channels, in the column order of
`rule_engine._matches_robot_perception`. -/
structure RobotPerception where
  energometro : Int
  lado1Top : Int
  lado2Left : Int
  vacuoscopioFront : Int
  lado0Front : Int
  roboscannerFront : Int
  lado3Right : Int
  lado4Down : Int
deriving DecidableEq, Repr

/-- A robot action cell.  The source stores a JSON string and decodes it with
`json.loads`, guarded by `except json.JSONDecodeError`; the embedding keeps
the decoded form (`tipo` plus the `directions` list) and a `malformed`
constructor for strings that fail to decode. -/
inductive RAction where
  | act (tipo : String) (directions : List String)
  | malformed (raw : String)
deriving DecidableEq, Repr

/-- One row of the robot rule table: the eight sensor columns, the 1-based
`Regla` column and the decoded `Accion` column. -/
structure RobotRule where
  energometro : Int
  lado1Top : Int
  lado2Left : Int
  vacuoscopioFront : Int
  lado0Front : Int
  roboscannerFront : Int
  lado3Right : Int
  lado4Down : Int
  regla : Int
  accion : RAction
deriving DecidableEq, Repr

/-- `RuleEngine._matches_robot_perception`: if the row has `Energometro = 1`
the row matches iff the perception has `Energometro = 1`; otherwise every one
of the eight sensor columns must equal the perception value exactly. -/
def matchesRobotPerception (rule : RobotRule) (p : RobotPerception) : Bool :=
  if rule.energometro == 1 then
    p.energometro == 1
  else
    rule.energometro == p.energometro &&
    rule.lado1Top == p.lado1Top &&
    rule.lado2Left == p.lado2Left &&
    rule.vacuoscopioFront == p.vacuoscopioFront &&
    rule.lado0Front == p.lado0Front &&
    rule.roboscannerFront == p.roboscannerFront &&
    rule.lado3Right == p.lado3Right &&
    rule.lado4Down == p.lado4Down

/-- The default robot action of `RuleEngine.get_robot_action`:
the JSON string with tipo `move` and directions `[front]`. -/
def defaultRobotAction : RAction := RAction.act "move" ["front"]

/-- `RuleEngine.get_robot_action`: the action of the first matching row, in
table order, else the default action. -/
def getRobotAction (rules : List RobotRule) (p : RobotPerception) : RAction :=
  match rules.find? (fun r => matchesRobotPerception r p) with
  | some r => r.accion
  | none => defaultRobotAction

/-- `RuleEngine.get_robot_rule_number`: the 1-based index of the first
matching row, else `none`. -/
def getRobotRuleNumber (rules : List RobotRule) (p : RobotPerception) : Option Nat :=
  (rules.findIdx? (fun r => matchesRobotPerception r p)).map (· + 1)

/-- The six monster sensor directions, in the column order of
`rule_engine._matches_monster_perception`. -/
structure MonsterPerception where
  top : Int
  left : Int
  front : Int
  right : Int
  down : Int
  behind : Int
deriving DecidableEq, Repr

/-- A monster action cell.  The source stores the surface strings
`wait`, `Mover hacia [Dir]` and `Mover aleatorio entre [Dir1, ...]` and
dispatches on their shape in `Monster._execute_action`; the embedding keeps
the dispatched form plus a constructor for unrecognized strings (which the
source silently ignores). -/
inductive MAction where
  | wait
  | moverHacia (dir : String)
  | moverAleatorio (dirs : List String)
  | unrecognized (raw : String)
deriving DecidableEq, Repr

/-- One row of the monster rule table. -/
structure MonsterRule where
  top : Int
  left : Int
  front : Int
  right : Int
  down : Int
  behind : Int
  regla : Int
  accion : MAction
deriving DecidableEq, Repr

/-- `RuleEngine._matches_monster_perception`: all six direction columns must
equal the perception exactly. -/
def matchesMonsterPerception (rule : MonsterRule) (p : MonsterPerception) : Bool :=
  rule.top == p.top &&
  rule.left == p.left &&
  rule.front == p.front &&
  rule.right == p.right &&
  rule.down == p.down &&
  rule.behind == p.behind

/-- `RuleEngine.get_monster_action`: the action of the first matching row,
else `wait`. -/
def getMonsterAction (rules : List MonsterRule) (p : MonsterPerception) : MAction :=
  match rules.find? (fun r => matchesMonsterPerception r p) with
  | some r => r.accion
  | none => MAction.wait

/-- Modelled from the spec: `RuleBook.monster_lookup` also reports the 1-based
index of the matching row.  `Monster.act` calls
`self.rule_engine.get_monster_rule_number(perceptions)` but no method of that
name is defined anywhere under the source tree; the spec specifies the lookup
as returning the matching rule index (1-based row order, first match wins),
so the missing method is modelled symmetrically to
`RuleEngine.get_robot_rule_number`. -/
def getMonsterRuleNumber (rules : List MonsterRule) (p : MonsterPerception) : Option Nat :=
  (rules.findIdx? (fun r => matchesMonsterPerception r p)).map (· + 1)

/-! ### Random stream

The source reads every random quantity from the process-global `random`
module: `random.sample` in `Environment._generate_world`, `random.choice` in
`Environment.get_random_internal_free_position`, `Robot._calculate_new_state`
and `Monster._execute_probabilistic_action`, and `random.random()` in
`Monster.act`.  `random.seed` is never called and `config.py` defines no seed
option.  The single global stream is embedded as an explicit list of natural
numbers; each `random.*` call consumes one element (an oracle model of the
stream, adequate for determinism and gating properties). -/

/-- The ambient pseudo-random stream. -/
abbrev RS := List Nat

/-- Draw the next raw value (0 when the stream is exhausted). -/
def nextNat (rs : RS) : Nat × RS := (rs.headD 0, rs.tail)

/-- `random.random()`: the next draw mapped into `[0,1)` as a rational. -/
def nextUnit (rs : RS) : ℚ × RS :=
  let (n, rs1) := nextNat rs
  (((n % 2 ^ 53 : Nat) : ℚ) / 2 ^ 53, rs1)

/-- `random.choice(l)` for a nonempty list `l` (every call site in the source
guards nonemptiness); the default `d` is returned only for the unreachable
empty case. -/
def randChoice (l : List α) (d : α) (rs : RS) : α × RS :=
  let (n, rs1) := nextNat rs
  (l.getD (n % l.length) d, rs1)

/-- `random.sample(l, k)`: `k` distinct elements, as successive removals
driven by the stream. -/
def sampleStream : List α → Nat → RS → List α × RS
  | _, 0, rs => ([], rs)
  | [], _ + 1, rs => ([], rs)
  | a :: as, k + 1, rs =>
    let (n, rs1) := nextNat rs
    let i := n % (a :: as).length
    let x := (a :: as).getD i a
    let (xs, rs2) := sampleStream ((a :: as).eraseIdx i) k rs1
    (x :: xs, rs2)

/-! ### World lattice (`environment.py`)

The numpy array `self.world` holds `0` (free) or `-1` (empty).  After
construction every mutation (`create_empty_zone_at`, monster destruction)
only ever writes `-1`, so the array is embedded by its value map: the lattice
size together with the list of cells that have been made empty, with the
boundary shell (`_create_boundaries`) folded into the value map. -/

/-- The world lattice: side length and the interior cells marked empty
(boundary cells are empty by `_create_boundaries`, see `cellValue`). -/
structure World where
  n : Nat
  empties : List Pos
deriving DecidableEq, Repr

/-- A cell on the boundary shell, written `-1` by
`Environment._create_boundaries`. -/
def isBoundaryCell (n : Nat) (p : Pos) : Bool :=
  p.1 == 0 || p.1 == (n : Int) - 1 ||
  p.2.1 == 0 || p.2.1 == (n : Int) - 1 ||
  p.2.2 == 0 || p.2.2 == (n : Int) - 1

/-- The in-bounds test of `Environment.is_valid_position` (and of the other
queries): every coordinate in `[0, N)`. -/
def inBoundsB (n : Nat) (p : Pos) : Bool :=
  0 ≤ p.1 && p.1 < (n : Int) &&
  0 ≤ p.2.1 && p.2.1 < (n : Int) &&
  0 ≤ p.2.2 && p.2.2 < (n : Int)

/-- The value `self.world[x, y, z]` of an in-bounds cell. -/
def cellValue (w : World) (p : Pos) : Int :=
  if isBoundaryCell w.n p || w.empties.contains p then -1 else 0

/-- `Environment.is_valid_position`: in bounds and the cell is free (`0`). -/
def isValidPosition (w : World) (p : Pos) : Bool :=
  inBoundsB w.n p && cellValue w p == 0

/-- `Environment.is_empty_at`: out of bounds counts as empty, otherwise the
cell value is `-1`. -/
def isEmptyAt (w : World) (p : Pos) : Bool :=
  if !inBoundsB w.n p then true else cellValue w p == -1

/-- `Environment.create_empty_zone_at`: mark an in-bounds cell empty. -/
def createEmptyZoneAt (w : World) (p : Pos) : World :=
  if inBoundsB w.n p then { w with empties := p :: w.empties } else w

/-- The list comprehension of interior positions in
`Environment._generate_world` (`range(1, N-1)` in each coordinate, x outer,
z inner). -/
def internalPositions (n : Nat) : List Pos :=
  (List.range' 1 (n - 2)).flatMap fun x =>
    (List.range' 1 (n - 2)).flatMap fun y =>
      (List.range' 1 (n - 2)).map fun z => ((x : Int), (y : Int), (z : Int))

/-- `Environment._generate_world` followed by `_create_boundaries`: mark
`int(internal_cells * Psoft * INTERNAL_EMPTY_RATIO * 0.5)` randomly sampled
interior cells empty (the boundary shell is folded into `cellValue`). -/
def generateWorld (n : Nat) (psoft ratio : ℚ) (rs : RS) : World × RS :=
  let internalCells : Nat := if n > 2 then (n - 2) ^ 3 else 0
  let numEmpty : Nat := (⌊(internalCells : ℚ) * (psoft * ratio * (1 / 2))⌋).toNat
  let ipos := internalPositions n
  if ipos ≠ [] ∧ 0 < numEmpty then
    let (emp, rs1) := sampleStream ipos (min numEmpty ipos.length) rs
    ({ n := n, empties := emp }, rs1)
  else
    ({ n := n, empties := [] }, rs)

/-! ### Agent registries (`environment.py`)

`self.robot_positions` and `self.monster_positions` are Python dicts keyed by
agent id; they are embedded as association lists in insertion order. -/

/-- Dict update `d[k] = v`: replace the first binding of `k`, else append. -/
def setKey (l : List (Nat × Pos)) (k : Nat) (v : Pos) : List (Nat × Pos) :=
  match l with
  | [] => [(k, v)]
  | (k0, v0) :: rest =>
    if k0 == k then (k, v) :: rest else (k0, v0) :: setKey rest k v

/-- Dict deletion `del d[k]` / `d.pop(k, None)`. -/
def delKey (l : List (Nat × Pos)) (k : Nat) : List (Nat × Pos) :=
  match l with
  | [] => []
  | (k0, v0) :: rest =>
    if k0 == k then rest else (k0, v0) :: delKey rest k

/-- Membership test `k in d`. -/
def hasKey (l : List (Nat × Pos)) (k : Nat) : Bool :=
  l.any fun kv => kv.1 == k

/-- The environment: the lattice plus the two agent registries. -/
structure Env where
  world : World
  robotPositions : List (Nat × Pos)
  monsterPositions : List (Nat × Pos)
deriving DecidableEq, Repr

/-- `Environment.is_monster_at`: in bounds and some registered monster holds
the position. -/
def isMonsterAt (env : Env) (p : Pos) : Bool :=
  inBoundsB env.world.n p && env.monsterPositions.any fun kv => kv.2 == p

/-- `Environment.is_robot_at`: in bounds and some registered robot other than
`excludeId` holds the position. -/
def isRobotAt (env : Env) (p : Pos) (excludeId : Option Nat) : Bool :=
  inBoundsB env.world.n p &&
    env.robotPositions.any fun kv =>
      kv.2 == p && (match excludeId with
                    | none => true
                    | some i => kv.1 != i)

/-- `Environment.remove_monster_at`: delete the first registered monster at
the position. -/
def removeMonsterAt (l : List (Nat × Pos)) (p : Pos) : List (Nat × Pos) :=
  match l with
  | [] => []
  | (k0, v0) :: rest =>
    if v0 == p then rest else (k0, v0) :: removeMonsterAt rest p

/-- `Environment.register_robot`. -/
def registerRobot (env : Env) (id : Nat) (p : Pos) : Env :=
  { env with robotPositions := setKey env.robotPositions id p }

/-- `Environment.register_monster`. -/
def registerMonster (env : Env) (id : Nat) (p : Pos) : Env :=
  { env with monsterPositions := setKey env.monsterPositions id p }

/-- `Environment.update_robot_position` (a no-op for an absent id). -/
def updateRobotPosition (env : Env) (id : Nat) (p : Pos) : Env :=
  if hasKey env.robotPositions id then
    { env with robotPositions := setKey env.robotPositions id p }
  else env

/-- `Environment.update_monster_position` (a no-op for an absent id). -/
def updateMonsterPosition (env : Env) (id : Nat) (p : Pos) : Env :=
  if hasKey env.monsterPositions id then
    { env with monsterPositions := setKey env.monsterPositions id p }
  else env

/-- `Environment.unregister_robot`. -/
def unregisterRobot (env : Env) (id : Nat) : Env :=
  { env with robotPositions := delKey env.robotPositions id }

/-- `Environment.get_internal_free_positions`. -/
def getInternalFreePositions (w : World) : List Pos :=
  (internalPositions w.n).filter fun p => cellValue w p == 0

/-- `Environment.get_random_internal_free_position`. -/
def getRandomInternalFreePosition (w : World) (rs : RS) : Option Pos × RS :=
  let free := getInternalFreePositions w
  if free.isEmpty then (none, rs)
  else
    let (p, rs1) := randChoice free (free.headD ((0 : Int), (0 : Int), (0 : Int))) rs
    (some p, rs1)

/-! ### Robot agent (`robot.py`) -/

/-- An orientation vector, the list `[ox, oy, oz]` of `Robot.orientation`. -/
abbrev Orient := Int × Int × Int

/-- `Robot._rotate_left`: rotate the orientation 90 degrees left in the XY
plane. -/
def rotateLeftO (o : Orient) : Orient := (-o.2.1, o.1, o.2.2)

/-- `Robot._rotate_right`: rotate the orientation 90 degrees right in the XY
plane. -/
def rotateRightO (o : Orient) : Orient := (o.2.1, -o.1, o.2.2)

/-- `Robot._calculate_relative_rotation`: the 24-entry head-relative rotation
table (six headings by four tokens); a heading or token outside the table
returns the orientation unchanged. -/
def calcRelativeRotation (o : Orient) (t : String) : Orient :=
  if t == "y-90" then
    if o == ((0 : Int), (1 : Int), (0 : Int)) then (1, 0, 0)
    else if o == ((0 : Int), (-1 : Int), (0 : Int)) then (-1, 0, 0)
    else if o == ((1 : Int), (0 : Int), (0 : Int)) then (0, -1, 0)
    else if o == ((-1 : Int), (0 : Int), (0 : Int)) then (0, 1, 0)
    else if o == ((0 : Int), (0 : Int), (1 : Int)) then (1, 0, 0)
    else if o == ((0 : Int), (0 : Int), (-1 : Int)) then (-1, 0, 0)
    else o
  else if t == "y+90" then
    if o == ((0 : Int), (1 : Int), (0 : Int)) then (-1, 0, 0)
    else if o == ((0 : Int), (-1 : Int), (0 : Int)) then (1, 0, 0)
    else if o == ((1 : Int), (0 : Int), (0 : Int)) then (0, 1, 0)
    else if o == ((-1 : Int), (0 : Int), (0 : Int)) then (0, -1, 0)
    else if o == ((0 : Int), (0 : Int), (1 : Int)) then (-1, 0, 0)
    else if o == ((0 : Int), (0 : Int), (-1 : Int)) then (1, 0, 0)
    else o
  else if t == "x+90" then
    if o == ((0 : Int), (1 : Int), (0 : Int)) then (0, 0, 1)
    else if o == ((0 : Int), (-1 : Int), (0 : Int)) then (0, 0, -1)
    else if o == ((1 : Int), (0 : Int), (0 : Int)) then (0, 1, 0)
    else if o == ((-1 : Int), (0 : Int), (0 : Int)) then (0, -1, 0)
    else if o == ((0 : Int), (0 : Int), (1 : Int)) then (0, -1, 0)
    else if o == ((0 : Int), (0 : Int), (-1 : Int)) then (0, 1, 0)
    else o
  else if t == "x-90" then
    if o == ((0 : Int), (1 : Int), (0 : Int)) then (0, 0, -1)
    else if o == ((0 : Int), (-1 : Int), (0 : Int)) then (0, 0, 1)
    else if o == ((1 : Int), (0 : Int), (0 : Int)) then (0, -1, 0)
    else if o == ((-1 : Int), (0 : Int), (0 : Int)) then (0, 1, 0)
    else if o == ((0 : Int), (0 : Int), (1 : Int)) then (0, 1, 0)
    else if o == ((0 : Int), (0 : Int), (-1 : Int)) then (0, -1, 0)
    else o
  else o

/-- The rotation formulas used by `Robot._filter_effective_rotations` (global
axis rotations, distinct from the executed `_calculate_relative_rotation`). -/
def globalRotation (o : Orient) (t : String) : Orient :=
  if t == "x+90" then (o.1, -o.2.2, o.2.1)
  else if t == "x-90" then (o.1, o.2.2, -o.2.1)
  else if t == "y+90" then (o.2.2, o.2.1, -o.1)
  else if t == "y-90" then (-o.2.2, o.2.1, o.1)
  else o

/-- `Robot._filter_effective_rotations`: keep a rotation token only when the
global rotation formula changes the current orientation; keep every
non-rotation token. -/
def filterEffectiveRotations (o : Orient) (directions : List String) : List String :=
  directions.filter fun d =>
    if d == "x+90" || d == "x-90" || d == "y+90" || d == "y-90" then
      globalRotation o d != o
    else
      true

/-- `Robot._get_front_position`. -/
def getFrontPosition (p : Pos) (o : Orient) : Pos :=
  (p.1 + o.1, p.2.1 + o.2.1, p.2.2 + o.2.2)

/-- `Robot._get_backward_position`. -/
def getBackwardPosition (p : Pos) (o : Orient) : Pos :=
  (p.1 - o.1, p.2.1 - o.2.1, p.2.2 - o.2.2)

/-- `Robot._get_left_position`. -/
def getLeftPosition (p : Pos) (o : Orient) : Pos :=
  getFrontPosition p (rotateLeftO o)

/-- `Robot._get_right_position`. -/
def getRightPosition (p : Pos) (o : Orient) : Pos :=
  getFrontPosition p (rotateRightO o)

/-- `Robot._get_up_position` (world absolute `z + 1`). -/
def getUpPosition (p : Pos) : Pos := (p.1, p.2.1, p.2.2 + 1)

/-- `Robot._get_down_position` (world absolute `z - 1`). -/
def getDownPosition (p : Pos) : Pos := (p.1, p.2.1, p.2.2 - 1)

/-- One entry of `Robot.memory` (`Robot._save_to_memory`): the step counter,
the stored perception, the chosen action and the position. -/
structure MemEntry where
  step : Nat
  perceptions : RobotPerception
  action : RAction
  position : Pos
deriving DecidableEq, Repr

/-- The robot agent state (`Robot.__init__`). -/
structure Robot where
  id : Nat
  position : Pos
  orientation : Orient
  alive : Bool
  monstersDestroyed : Nat
  robotsCollided : Nat
  memory : List MemEntry
  memoryLimit : Nat
  previousPosition : Option Pos
  collidedWithEmpty : Bool
  vacuscopeMemory : Int
deriving DecidableEq, Repr

/-- `Robot._perceptions_match`: the eight key sensors agree. -/
def perceptionsMatch (current stored : RobotPerception) : Bool :=
  current.energometro == stored.energometro &&
  current.lado1Top == stored.lado1Top &&
  current.lado2Left == stored.lado2Left &&
  current.vacuoscopioFront == stored.vacuoscopioFront &&
  current.lado0Front == stored.lado0Front &&
  current.roboscannerFront == stored.roboscannerFront &&
  current.lado3Right == stored.lado3Right &&
  current.lado4Down == stored.lado4Down

/-- `Robot.consult_memory`: the action of the most recent stored experience
whose eight key sensors match the current perception. -/
def consultMemory (memory : List MemEntry) (p : RobotPerception) : Option RAction :=
  (memory.reverse.find? fun e => perceptionsMatch p e.perceptions).map (·.action)

/-- Python list slice `l[-k:]` (note that `l[-0:]` is the whole list). -/
def pySliceLast (k : Nat) (l : List α) : List α :=
  if k == 0 then l else l.drop (l.length - k)

/-- `Robot._save_to_memory`: append the experience, then cut the list to the
last `memory_limit` entries when it exceeds the limit. -/
def saveToMemory (r : Robot) (p : RobotPerception) (a : RAction) : List MemEntry :=
  let m := r.memory ++ [{ step := r.memory.length, perceptions := p,
                          action := a, position := r.position }]
  if m.length > r.memoryLimit then pySliceLast r.memoryLimit m else m

/-- `Robot.perceive`: refresh the eight sensors from the environment.  The
roboscanner update fires the robot-encounter reflex
(`Robot._handle_robot_encounter`), rotating the robot `y+90` as a side
effect, so the updated robot is returned with the perception.  A dead robot
perceives nothing and is unchanged. -/
def robotPerceive (env : Env) (r : Robot) : RobotPerception × Robot :=
  if !r.alive then
    ({ energometro := 0, lado1Top := 0, lado2Left := 0, vacuoscopioFront := 0,
       lado0Front := 0, roboscannerFront := 0, lado3Right := 0, lado4Down := 0 }, r)
  else
    let p := r.position
    let energometro : Int := if isMonsterAt env p then 1 else 0
    let lado1Top : Int := if isMonsterAt env (getUpPosition p) then 1 else 0
    let lado2Left : Int := if isMonsterAt env (getLeftPosition p r.orientation) then 1 else 0
    let lado0Front : Int := if isMonsterAt env (getFrontPosition p r.orientation) then 1 else 0
    let lado3Right : Int := if isMonsterAt env (getRightPosition p r.orientation) then 1 else 0
    let lado4Down : Int := if isMonsterAt env (getDownPosition p) then 1 else 0
    let vacuoscopioFront : Int := if r.vacuscopeMemory == -1 then -1 else 0
    let frontPos := getFrontPosition p r.orientation
    let robotAhead := isRobotAt env frontPos (some r.id)
    let roboscannerFront : Int := if robotAhead then 2 else 0
    let r1 := if robotAhead then
                { r with orientation := calcRelativeRotation r.orientation "y+90" }
              else r
    ({ energometro := energometro, lado1Top := lado1Top, lado2Left := lado2Left,
       vacuoscopioFront := vacuoscopioFront, lado0Front := lado0Front,
       roboscannerFront := roboscannerFront, lado3Right := lado3Right,
       lado4Down := lado4Down }, r1)

/-- The Python exception kinds that can arise in the embedded code paths.
A `try`/`except` block in the source handles exactly the kinds named in its
`except` clause; any other kind propagates. -/
inductive PyErr where
  | jsonDecodeError
  | keyError
  | indexError
  | unboundLocalError
  | attributeError
deriving DecidableEq, Repr

deriving instance DecidableEq for Except

/-- The decision stage of `Robot.act` (rule-35 override, memory consult,
rule lookup), before the new state is calculated. -/
structure DecisionResult where
  action : RAction
  ruleNum : Option Nat
  memoryAction : Option RAction
  usesMemory : Nat
  usesRule : Nat
deriving DecidableEq, Repr

/-- The decision logic of `Robot.act`: with `Vacuoscopio_Front = -1`
(rule 35) the rule book is consulted directly and memory is bypassed;
otherwise memory is consulted first and the rule book is the fallback. -/
def robotDecide (rules : List RobotRule) (memory : List MemEntry)
    (p : RobotPerception) : DecisionResult :=
  if p.vacuoscopioFront == -1 then
    { action := getRobotAction rules p, ruleNum := getRobotRuleNumber rules p,
      memoryAction := none, usesMemory := 0, usesRule := 1 }
  else
    match consultMemory memory p with
    | some a =>
      { action := a, ruleNum := some 0, memoryAction := some a,
        usesMemory := 1, usesRule := 0 }
    | none =>
      { action := getRobotAction rules p, ruleNum := getRobotRuleNumber rules p,
        memoryAction := none, usesMemory := 0, usesRule := 1 }

/-- `Robot._calculate_z_forward_position`. -/
def calcZForwardPosition (env : Env) (r : Robot) : Pos :=
  let t : Pos := (r.position.1, r.position.2.1, r.position.2.2 + 1)
  if isValidPosition env.world t then t else r.position

/-- `Robot._calculate_new_state`: simulate the action to obtain the new
position, new orientation and the executed direction.  The surrounding
`try` catches `json.JSONDecodeError`, `KeyError` and `IndexError` and then
returns the unchanged state; in the `rotate` branch with an empty
`directions` list the dedented `elif direction == 'y+90'` arm evaluates the
unbound local `direction`, raising `UnboundLocalError`, which is not among
the caught kinds and therefore propagates. -/
def calculateNewStateE (env : Env) (r : Robot) (a : RAction) (rs : RS) :
    Except PyErr ((Pos × Orient × String) × RS) :=
  match a with
  | .malformed _ => .ok ((r.position, r.orientation, "none"), rs)
  | .act tipo dirs =>
    if tipo == "destroy" then .ok ((r.position, r.orientation, "none"), rs)
    else if tipo == "memory" then
      .ok ((getBackwardPosition r.position r.orientation, r.orientation, "back"), rs)
    else if tipo == "idle" then .ok ((r.position, r.orientation, "none"), rs)
    else if tipo == "move" then
      match dirs with
      | [] => .ok ((r.position, r.orientation, "none"), rs)
      | d :: _ =>
        if d == "z+90" then .ok ((calcZForwardPosition env r, r.orientation, d), rs)
        else if d == "x+90" || d == "x-90" || d == "y+90" || d == "y-90" then
          .ok ((r.position, calcRelativeRotation r.orientation d, d), rs)
        else .ok ((r.position, r.orientation, d), rs)
    else if tipo == "move_random" then
      match dirs with
      | [] => .ok ((r.position, r.orientation, "none"), rs)
      | d0 :: _ =>
        let eff := filterEffectiveRotations r.orientation dirs
        let (d, rs1) := if eff.isEmpty then (d0, rs) else randChoice eff d0 rs
        if d == "z+90" then .ok ((calcZForwardPosition env r, r.orientation, d), rs1)
        else if d == "x+90" || d == "x-90" || d == "y+90" || d == "y-90" then
          .ok ((r.position, calcRelativeRotation r.orientation d, d), rs1)
        else .ok ((r.position, r.orientation, d), rs1)
    else if tipo == "rotate" then
      match dirs with
      | [] => .error .unboundLocalError
      | d :: _ =>
        if d == "left" then .ok ((r.position, rotateLeftO r.orientation, d), rs)
        else if d == "right" then .ok ((r.position, rotateRightO r.orientation, d), rs)
        else if d == "x+90" || d == "x-90" then
          .ok ((r.position, calcRelativeRotation r.orientation d, d), rs)
        else .ok ((r.position, r.orientation, d), rs)
    else .ok ((r.position, r.orientation, "none"), rs)

/-- `Robot._convert_to_specific_action`: a `move_random` action is replaced
with a deterministic `move` to the executed direction; anything else
(including a malformed payload, whose decode failure is caught) is returned
unchanged. -/
def convertToSpecificAction (a : RAction) (executedDirection : String) : RAction :=
  match a with
  | .act tipo _ =>
    if tipo == "move_random" then .act "move" [executedDirection] else a
  | .malformed _ => a

/-- One row of the per-robot operation log
(`RobotLogger.store_robot_operation` payload built in `Robot.act`). -/
structure RobotLogEntry where
  position : Pos
  orientation : Orient
  sensors : RobotPerception
  ruleNum : Option Nat
  action : RAction
  specificAction : RAction
  newPosition : Pos
  newOrientation : Orient
  memoryAction : Option RAction
  usesMemory : Nat
  usesRule : Nat
deriving DecidableEq, Repr

/-- `Robot.act`: decide an action (rule 35 / memory / rule book), calculate
the would-be new state, convert to the specific action, store the log row,
save the experience to memory, consume the vacuscope memory, and return the
specific action.  The `UnboundLocalError` of `_calculate_new_state`
propagates (there is no handler in `act`). -/
def robotActE (rules : List RobotRule) (env : Env) (r : Robot)
    (p : RobotPerception) (rs : RS) :
    Except PyErr (RAction × Robot × RS × Option RobotLogEntry) :=
  if !r.alive then .ok (.malformed "none", r, rs, none)
  else
    let dec := robotDecide rules r.memory p
    match calculateNewStateE env r dec.action rs with
    | .error e => .error e
    | .ok ((newPos, newOrient, executedDir), rs1) =>
      let specific := convertToSpecificAction dec.action executedDir
      let log : RobotLogEntry :=
        { position := r.position, orientation := r.orientation, sensors := p,
          ruleNum := dec.ruleNum, action := dec.action,
          specificAction := specific, newPosition := newPos,
          newOrientation := newOrient, memoryAction := dec.memoryAction,
          usesMemory := dec.usesMemory, usesRule := dec.usesRule }
      let r1 := { r with memory := saveToMemory r p specific }
      let r2 := if r1.vacuscopeMemory == -1 then { r1 with vacuscopeMemory := 0 }
                else r1
      .ok (specific, r2, rs1, some log)

/-! ### Monster agent (`monster.py`) -/

/-- The monster agent state (`Monster.__init__`). -/
structure Monster where
  id : Nat
  position : Pos
  alive : Bool
  K : Nat
  p : ℚ
  stepsSinceLastAction : Nat
  lastAction : Option MAction
deriving DecidableEq, Repr

/-- One row of the per-monster operation log
(`MonsterLogger.store_monster_operation` payload). -/
structure MonsterLogEntry where
  position : Pos
  perceptions : Option MonsterPerception
  ruleNumber : Option Nat
  action : String
  newPosition : Pos
  stepsRemaining : Int
  K : Nat
  p : ℚ
  alive : Bool
deriving DecidableEq, Repr

/-- The surface rendering of a monster action (the strings dispatched on by
`Monster._execute_action`). -/
def mActionStr : MAction → String
  | .wait => "wait"
  | .moverHacia d => "Mover hacia [" ++ d ++ "]"
  | .moverAleatorio ds => "Mover aleatorio entre [" ++ String.intercalate ", " ds ++ "]"
  | .unrecognized s => s

/-- `Monster.perceive`: the six world-absolute neighbors, `0` when the
neighbor is a valid (free) position, `-1` otherwise. -/
def monsterPerceive (w : World) (m : Monster) : MonsterPerception :=
  let x := m.position.1
  let y := m.position.2.1
  let z := m.position.2.2
  let val : Pos → Int := fun t => if isValidPosition w t then 0 else -1
  { top := val (x, y, z + 1), left := val (x - 1, y, z),
    front := val (x, y + 1, z), right := val (x + 1, y, z),
    down := val (x, y, z - 1), behind := val (x, y - 1, z) }

/-- The direction map of `Monster._move_to_direction`. -/
def monsterDirectionTarget (p : Pos) (dir : String) : Option Pos :=
  let x := p.1
  let y := p.2.1
  let z := p.2.2
  if dir == "Top" then some (x, y, z + 1)
  else if dir == "Left" then some (x - 1, y, z)
  else if dir == "Front" then some (x, y + 1, z)
  else if dir == "Right" then some (x + 1, y, z)
  else if dir == "Down" then some (x, y, z - 1)
  else if dir == "Behind" then some (x, y - 1, z)
  else none

/-- `Monster._move_to_direction`: relocate into the named neighbor when it is
a valid (in-bounds, free) lattice cell, else stay; only the lattice is
consulted, never the agent registries. -/
def monsterMoveToDirection (env : Env) (m : Monster) (dir : String) : Monster × Env :=
  match monsterDirectionTarget m.position dir with
  | none => (m, env)
  | some t =>
    if isValidPosition env.world t then
      ({ m with position := t }, updateMonsterPosition env m.id t)
    else (m, env)

/-- `Monster._execute_action`: dispatch on the action surface form.  A
probabilistic action draws uniformly among its listed directions. -/
def monsterExecuteAction (env : Env) (m : Monster) (a : MAction) (rs : RS) :
    Monster × Env × RS :=
  match a with
  | .wait => (m, env, rs)
  | .moverHacia d =>
    let (m1, env1) := monsterMoveToDirection env m d
    (m1, env1, rs)
  | .moverAleatorio dirs =>
    if dirs.isEmpty then (m, env, rs)
    else
      let (d, rs1) := randChoice dirs (dirs.headD "") rs
      let (m1, env1) := monsterMoveToDirection env m d
      (m1, env1, rs1)
  | .unrecognized _ => (m, env, rs)

/-- `Monster.act`: the K/p gating followed by rule lookup and execution.
The counter is incremented first; a cooldown wait does not reset it, a
probability wait resets it to zero, and an executed action resets it to
zero.  Every call stores one operation-log row. -/
def monsterAct (rules : List MonsterRule) (env : Env) (m : Monster)
    (p : MonsterPerception) (rs : RS) :
    MAction × Monster × Env × RS × (Nat × MonsterLogEntry) :=
  if !m.alive then
    (.unrecognized "none", m, env, rs,
     (m.id, { position := m.position, perceptions := some p, ruleNumber := none,
              action := "none", newPosition := m.position,
              stepsRemaining := (m.K : Int) - (m.stepsSinceLastAction : Int),
              K := m.K, p := m.p, alive := false }))
  else
    let stepsRemaining : Int := (m.K : Int) - (m.stepsSinceLastAction : Int)
    let m1 := { m with stepsSinceLastAction := m.stepsSinceLastAction + 1 }
    if m1.stepsSinceLastAction < m.K then
      (.wait, m1, env, rs,
       (m.id, { position := m.position, perceptions := some p, ruleNumber := none,
                action := "wait", newPosition := m.position,
                stepsRemaining := stepsRemaining - 1, K := m.K, p := m.p,
                alive := true }))
    else
      let (u, rs1) := nextUnit rs
      if u > m.p then
        (.wait, { m1 with stepsSinceLastAction := 0 }, env, rs1,
         (m.id, { position := m.position, perceptions := some p, ruleNumber := none,
                  action := "wait", newPosition := m.position,
                  stepsRemaining := (m.K : Int), K := m.K, p := m.p,
                  alive := true }))
      else
        let action := getMonsterAction rules p
        let ruleNumber := getMonsterRuleNumber rules p
        let oldPos := m1.position
        let (m2, env1, rs2) := monsterExecuteAction env m1 action rs1
        let m3 := { m2 with stepsSinceLastAction := 0, lastAction := some action }
        (action, m3, env1, rs2,
         (m.id, { position := oldPos, perceptions := some p,
                  ruleNumber := ruleNumber, action := mActionStr action,
                  newPosition := m3.position, stepsRemaining := (m.K : Int),
                  K := m.K, p := m.p, alive := true }))

/-! ### Robot action execution (`Robot._execute_action` and helpers) -/

/-- `Robot._move_front`: remember the previous position, then advance into
the body-forward neighbor when it is a valid cell; otherwise flag the
collision and set the vacuscope memory to `-1`. -/
def robotMoveFront (env : Env) (r : Robot) : Robot × Env :=
  let t := getFrontPosition r.position r.orientation
  let r0 := { r with previousPosition := some r.position }
  if isValidPosition env.world t then
    ({ r0 with position := t }, updateRobotPosition env r.id t)
  else
    ({ r0 with collidedWithEmpty := true, vacuscopeMemory := -1 }, env)

/-- `Robot._move_up`: remember the previous position, then move up when the
target is valid (no vacuscope flag on failure). -/
def robotMoveUp (env : Env) (r : Robot) : Robot × Env :=
  let t := getUpPosition r.position
  let r0 := { r with previousPosition := some r.position }
  if isValidPosition env.world t then
    ({ r0 with position := t }, updateRobotPosition env r.id t)
  else (r0, env)

/-- `Robot._move_left`. -/
def robotMoveLeft (env : Env) (r : Robot) : Robot × Env :=
  let t := getLeftPosition r.position r.orientation
  let r0 := { r with previousPosition := some r.position }
  if isValidPosition env.world t then
    ({ r0 with position := t }, updateRobotPosition env r.id t)
  else (r0, env)

/-- `Robot._move_right`. -/
def robotMoveRight (env : Env) (r : Robot) : Robot × Env :=
  let t := getRightPosition r.position r.orientation
  let r0 := { r with previousPosition := some r.position }
  if isValidPosition env.world t then
    ({ r0 with position := t }, updateRobotPosition env r.id t)
  else (r0, env)

/-- `Robot._move_down`. -/
def robotMoveDown (env : Env) (r : Robot) : Robot × Env :=
  let t := getDownPosition r.position
  let r0 := { r with previousPosition := some r.position }
  if isValidPosition env.world t then
    ({ r0 with position := t }, updateRobotPosition env r.id t)
  else (r0, env)

/-- `Robot._move_in_direction`: translation tokens move, rotation tokens
apply the relative rotation, `z+90` advances forward, anything else is a
logged no-op. -/
def robotMoveInDirection (env : Env) (r : Robot) (d : String) : Robot × Env :=
  if d == "front" then robotMoveFront env r
  else if d == "top" then robotMoveUp env r
  else if d == "left" then robotMoveLeft env r
  else if d == "right" then robotMoveRight env r
  else if d == "down" then robotMoveDown env r
  else if d == "x+90" || d == "x-90" || d == "y+90" || d == "y-90" then
    ({ r with orientation := calcRelativeRotation r.orientation d }, env)
  else if d == "z+90" then robotMoveFront env r
  else (r, env)

/-- Kill the first live monster of the list at the position (the loop with
`break` in `Robot._destroy_monster`). -/
def killFirstMonsterAt : List Monster → Pos → List Monster × Option Monster
  | [], _ => ([], none)
  | m :: rest, p =>
    if m.alive && m.position == p then
      ({ m with alive := false } :: rest, some { m with alive := false })
    else
      let (rest1, found) := killFirstMonsterAt rest p
      (m :: rest1, found)

/-- `Robot._destroy_monster`: when the registry reports a monster in the
robot's cell, kill the first matching live monster of the list, log its
death, remove it from the registry, mark the cell empty, and let the robot
die (mutual sacrifice) and unregister; otherwise a logged no-op. -/
def robotDestroyMonster (env : Env) (monsters : List Monster) (r : Robot) :
    Robot × Env × List Monster × Option (Nat × MonsterLogEntry) :=
  let pos := r.position
  if isMonsterAt env pos then
    let (monsters1, found) := killFirstMonsterAt monsters pos
    let deathLog : Option (Nat × MonsterLogEntry) :=
      found.map fun dm =>
        (dm.id, { position := dm.position, perceptions := none, ruleNumber := none,
                  action := "death_by_robot", newPosition := dm.position,
                  stepsRemaining := (dm.K : Int) - (dm.stepsSinceLastAction : Int),
                  K := dm.K, p := dm.p, alive := false })
    let r1 := { r with
                monstersDestroyed := r.monstersDestroyed +
                  (if found.isSome then 1 else 0),
                alive := false }
    let env1 := { env with monsterPositions := removeMonsterAt env.monsterPositions pos }
    let env2 := { env1 with world := createEmptyZoneAt env1.world pos }
    let env3 := unregisterRobot env2 r.id
    (r1, env3, monsters1, deathLog)
  else (r, env, monsters, none)

/-- `Robot._step_back_from_empty`: restore the previous position when one is
recorded. -/
def robotStepBackFromEmpty (env : Env) (r : Robot) : Robot × Env :=
  match r.previousPosition with
  | some q =>
    ({ r with position := q, collidedWithEmpty := false },
     updateRobotPosition env r.id q)
  | none => (r, env)

/-- `Robot._execute_action`: dispatch on the decoded action.  Decode failure
and unknown kinds are caught or warned and leave the state unchanged; this
function is total (its body is wrapped in a catch-all handler in the
source). -/
def executeActionR (env : Env) (monsters : List Monster) (r : Robot)
    (a : RAction) : Robot × Env × List Monster × Option (Nat × MonsterLogEntry) :=
  match a with
  | .malformed _ => (r, env, monsters, none)
  | .act tipo dirs =>
    if tipo == "destroy" then robotDestroyMonster env monsters r
    else if tipo == "memory" then
      let (r1, env1) := robotStepBackFromEmpty env r
      (r1, env1, monsters, none)
    else if tipo == "idle" then (r, env, monsters, none)
    else if tipo == "move" || tipo == "move_random" then
      match dirs with
      | [] => (r, env, monsters, none)
      | d :: _ =>
        let (r1, env1) := robotMoveInDirection env r d
        (r1, env1, monsters, none)
    else (r, env, monsters, none)

/-! ### Scheduler and collision resolver (`realtime_3d_colab.py`) -/

/-- Modelled from the spec: `Environment.detect_robot_collisions` is called
by `RealTimeSimulation._handle_robot_collisions` but not defined anywhere
under the source tree.  The spec says to enumerate unordered pairs `(a, b)`
of live robots with equal positions, and the call site asserts
`robot_id1 < robot_id2` by construction; the pairs are enumerated in
list (ascending id) order. -/
def detectRobotCollisions : List Robot → List (Nat × Nat)
  | [] => []
  | r :: rest =>
    (if r.alive then
      (rest.filter fun b => b.alive && b.position == r.position && r.id < b.id).map
        fun b => (r.id, b.id)
     else []) ++ detectRobotCollisions rest

/-- `next((r for r in self.robots if r.id == id), None)`. -/
def findRobot (robots : List Robot) (id : Nat) : Option Robot :=
  robots.find? fun r => r.id == id

/-- Update the robot with the given id in place. -/
def mapRobot (robots : List Robot) (id : Nat) (f : Robot → Robot) : List Robot :=
  robots.map fun r => if r.id == id then f r else r

/-- The body of the loop in `RealTimeSimulation._handle_robot_collisions`:
if both members of the pair are (still) alive, the smaller id survives with
its `robots_collided` counter incremented, the larger id is marked dead and
popped from the registry, and the simulation-wide `robots_destroyed` counter
is incremented. -/
def resolveRobotPair (st : List Robot × Env × Nat) (pr : Nat × Nat) :
    List Robot × Env × Nat :=
  let (robots, env, rd) := st
  match findRobot robots pr.1, findRobot robots pr.2 with
  | some r1, some r2 =>
    if r1.alive && r2.alive then
      let robots1 := mapRobot robots pr.1 fun r =>
        { r with robotsCollided := r.robotsCollided + 1 }
      let robots2 := mapRobot robots1 pr.2 fun r => { r with alive := false }
      (robots2, { env with robotPositions := delKey env.robotPositions pr.2 }, rd + 1)
    else st
  | _, _ => st

/-- `RealTimeSimulation._handle_robot_collisions`: resolve every detected
pair in order. -/
def handleRobotCollisions (robots : List Robot) (env : Env) (rd : Nat) :
    List Robot × Env × Nat :=
  (detectRobotCollisions robots).foldl resolveRobotPair (robots, env, rd)

/-- Modelled from the spec: `Environment.detect_monster_collisions` is
likewise only called, never defined, under the source tree; same arbitration
as for robots (unordered pairs of live monsters with equal positions,
smaller id first). -/
def detectMonsterCollisions : List Monster → List (Nat × Nat)
  | [] => []
  | m :: rest =>
    (if m.alive then
      (rest.filter fun b => b.alive && b.position == m.position && m.id < b.id).map
        fun b => (m.id, b.id)
     else []) ++ detectMonsterCollisions rest

/-- `next((m for m in self.monsters if m.id == id), None)`. -/
def findMonster (monsters : List Monster) (id : Nat) : Option Monster :=
  monsters.find? fun m => m.id == id

/-- Update the monster with the given id in place. -/
def mapMonster (monsters : List Monster) (id : Nat) (f : Monster → Monster) :
    List Monster :=
  monsters.map fun m => if m.id == id then f m else m

/-- The body of the loop in `RealTimeSimulation._handle_monster_collisions`:
the smaller id survives, the larger is marked dead, logged as
`death_by_collision` and popped from the registry; the simulation-wide
`monsters_destroyed` counter is incremented. -/
def resolveMonsterPair
    (st : List Monster × Env × Nat × List (Nat × MonsterLogEntry))
    (pr : Nat × Nat) : List Monster × Env × Nat × List (Nat × MonsterLogEntry) :=
  let (monsters, env, md, logs) := st
  match findMonster monsters pr.1, findMonster monsters pr.2 with
  | some m1, some m2 =>
    if m1.alive && m2.alive then
      let monsters1 := mapMonster monsters pr.2 fun m => { m with alive := false }
      let log : Nat × MonsterLogEntry :=
        (m2.id, { position := m2.position, perceptions := none, ruleNumber := none,
                  action := "death_by_collision", newPosition := m2.position,
                  stepsRemaining := (m2.K : Int) - (m2.stepsSinceLastAction : Int),
                  K := m2.K, p := m2.p, alive := false })
      (monsters1, { env with monsterPositions := delKey env.monsterPositions pr.2 },
       md + 1, logs ++ [log])
    else st
  | _, _ => st

/-- `RealTimeSimulation._handle_monster_collisions`. -/
def handleMonsterCollisions (monsters : List Monster) (env : Env) (md : Nat) :
    List Monster × Env × Nat × List (Nat × MonsterLogEntry) :=
  (detectMonsterCollisions monsters).foldl resolveMonsterPair (monsters, env, md, [])

/-- The robot phase of `RealTimeSimulation.simulation_loop`: each live robot
in list order perceives, decides (`Robot.act`), executes the returned
specific action, and perceives again (the `perceive(False)` display call,
whose encounter-reflex side effect persists); later robots observe earlier
robots' world mutations.  A propagating exception aborts the phase. -/
def processRobotsE (rules : List RobotRule) :
    List Robot → Env → List Monster → RS →
    Except PyErr (List Robot × Env × List Monster × RS ×
                  List (Nat × RobotLogEntry) × List (Nat × MonsterLogEntry))
  | [], env, monsters, rs => .ok ([], env, monsters, rs, [], [])
  | r :: rest, env, monsters, rs =>
    if r.alive then
      let (p, r1) := robotPerceive env r
      match robotActE rules env r1 p rs with
      | .error e => .error e
      | .ok (specific, r2, rs1, logEntry) =>
        let (r3, env1, monsters1, deathLog) := executeActionR env monsters r2 specific
        let (_, r4) := robotPerceive env1 r3
        match processRobotsE rules rest env1 monsters1 rs1 with
        | .error e => .error e
        | .ok (rest1, env2, monsters2, rs2, rlogs, mlogs) =>
          .ok (r4 :: rest1, env2, monsters2, rs2,
               (match logEntry with | some le => [(r.id, le)] | none => []) ++ rlogs,
               (match deathLog with | some dl => [dl] | none => []) ++ mlogs)
    else
      match processRobotsE rules rest env monsters rs with
      | .error e => .error e
      | .ok (rest1, env2, monsters2, rs2, rlogs, mlogs) =>
        .ok (r :: rest1, env2, monsters2, rs2, rlogs, mlogs)

/-- The monster phase of `RealTimeSimulation.simulation_loop`: each live
monster in list order perceives and acts. -/
def processMonsters (rules : List MonsterRule) :
    List Monster → Env → RS →
    List Monster × Env × RS × List (Nat × MonsterLogEntry)
  | [], env, rs => ([], env, rs, [])
  | m :: rest, env, rs =>
    if m.alive then
      let p := monsterPerceive env.world m
      let (_, m1, env1, rs1, log) := monsterAct rules env m p rs
      let (rest1, env2, rs2, logs) := processMonsters rules rest env1 rs1
      (m1 :: rest1, env2, rs2, log :: logs)
    else
      let (rest1, env2, rs2, logs) := processMonsters rules rest env rs
      (m :: rest1, env2, rs2, logs)

/-- The full simulation state threaded through the scheduler. -/
structure SimState where
  env : Env
  robots : List Robot
  monsters : List Monster
  rs : RS
  stepIdx : Nat
  robotLog : List (Nat × RobotLogEntry)
  monsterLog : List (Nat × MonsterLogEntry)
  monstersDestroyedByCollision : Nat
  robotsDestroyed : Nat
deriving DecidableEq, Repr

/-- One iteration of `RealTimeSimulation.simulation_loop`: robot phase,
robot collision sweep, monster phase, monster collision sweep. -/
def stepE (robotRules : List RobotRule) (monsterRules : List MonsterRule)
    (st : SimState) : Except PyErr SimState :=
  match processRobotsE robotRules st.robots st.env st.monsters st.rs with
  | .error e => .error e
  | .ok (robots1, env1, monsters1, rs1, rlogs, mlogs1) =>
    let (robots2, env2, rd) := handleRobotCollisions robots1 env1 st.robotsDestroyed
    let (monsters2, env3, rs2, mlogs2) := processMonsters monsterRules monsters1 env2 rs1
    let (monsters3, env4, md, mlogs3) :=
      handleMonsterCollisions monsters2 env3 st.monstersDestroyedByCollision
    .ok { env := env4, robots := robots2, monsters := monsters3, rs := rs2,
          stepIdx := st.stepIdx + 1,
          robotLog := st.robotLog ++ rlogs,
          monsterLog := st.monsterLog ++ mlogs1 ++ mlogs2 ++ mlogs3,
          monstersDestroyedByCollision := md, robotsDestroyed := rd }

/-! ### Configuration and initialization -/

/-- The configuration constants of `config.py` consumed by the simulation
core.  `config.py` defines no random-seed option and the source never calls
`random.seed`. -/
structure Config where
  worldSize : Nat
  percentageEmpty : ℚ
  internalEmptyRatio : ℚ
  numRobots : Nat
  numMonsters : Nat
  robotPositionFixed : Bool
  robotFixedPosition : Pos
  monsterPositionFixed : Bool
  monsterFixedPosition : Pos
  simulationSteps : Nat
  monsterK : Nat
  monsterP : ℚ
  robotMemoryLimit : Nat
deriving DecidableEq, Repr

/-- The literal values of `config.py`. -/
def defaultConfig : Config :=
  { worldSize := 6, percentageEmpty := 3 / 10, internalEmptyRatio := 3 / 10,
    numRobots := 1, numMonsters := 1,
    robotPositionFixed := false, robotFixedPosition := (2, 2, 2),
    monsterPositionFixed := false, monsterFixedPosition := (1, 1, 1),
    simulationSteps := 100, monsterK := 3, monsterP := 1 / 2,
    robotMemoryLimit := 1000 }

/-- `Robot.__init__`: initial orientation `+z`, alive, empty memory,
vacuscope clear. -/
def mkRobot (cfg : Config) (id : Nat) (pos : Pos) : Robot :=
  { id := id, position := pos, orientation := (0, 0, 1), alive := true,
    monstersDestroyed := 0, robotsCollided := 0, memory := [],
    memoryLimit := cfg.robotMemoryLimit, previousPosition := none,
    collidedWithEmpty := false, vacuscopeMemory := 0 }

/-- `Monster.__init__`. -/
def mkMonster (cfg : Config) (id : Nat) (pos : Pos) : Monster :=
  { id := id, position := pos, alive := true, K := cfg.monsterK,
    p := cfg.monsterP, stepsSinceLastAction := 0, lastAction := none }

/-- The robot-creation loop of `RealTimeSimulation.initialize_simulation`
(ids start at 1; fixed or random-internal-free placement; a robot without a
placement is skipped). -/
def createRobots (cfg : Config) : Nat → Nat → Env → RS → List Robot × Env × RS
  | 0, _, env, rs => ([], env, rs)
  | k + 1, nextId, env, rs =>
    let (posOpt, rs1) :=
      if cfg.robotPositionFixed then (some cfg.robotFixedPosition, rs)
      else getRandomInternalFreePosition env.world rs
    match posOpt with
    | some pos =>
      let r := mkRobot cfg nextId pos
      let env1 := registerRobot env nextId pos
      let (rest, env2, rs2) := createRobots cfg k (nextId + 1) env1 rs1
      (r :: rest, env2, rs2)
    | none =>
      let (rest, env2, rs2) := createRobots cfg k (nextId + 1) env rs1
      (rest, env2, rs2)

/-- The monster-creation loop of `RealTimeSimulation.initialize_simulation`. -/
def createMonsters (cfg : Config) : Nat → Nat → Env → RS → List Monster × Env × RS
  | 0, _, env, rs => ([], env, rs)
  | k + 1, nextId, env, rs =>
    let (posOpt, rs1) :=
      if cfg.monsterPositionFixed then (some cfg.monsterFixedPosition, rs)
      else getRandomInternalFreePosition env.world rs
    match posOpt with
    | some pos =>
      let m := mkMonster cfg nextId pos
      let env1 := registerMonster env nextId pos
      let (rest, env2, rs2) := createMonsters cfg k (nextId + 1) env1 rs1
      (m :: rest, env2, rs2)
    | none =>
      let (rest, env2, rs2) := createMonsters cfg k (nextId + 1) env rs1
      (rest, env2, rs2)

/-- `RealTimeSimulation.initialize_simulation`: generate the world, then
create and register the robots and the monsters, consuming the single
ambient random stream throughout. -/
def initSimulation (cfg : Config) (rs : RS) : SimState :=
  let (w, rs1) := generateWorld cfg.worldSize cfg.percentageEmpty
                    cfg.internalEmptyRatio rs
  let env0 : Env := { world := w, robotPositions := [], monsterPositions := [] }
  let (robots, env1, rs2) := createRobots cfg cfg.numRobots 1 env0 rs1
  let (monsters, env2, rs3) := createMonsters cfg cfg.numMonsters 1 env1 rs2
  { env := env2, robots := robots, monsters := monsters, rs := rs3,
    stepIdx := 0, robotLog := [], monsterLog := [],
    monstersDestroyedByCollision := 0, robotsDestroyed := 0 }

/-- The iteration structure of `RealTimeSimulation.simulation_loop`: before
each step, stop when the monsters are extinct; after each step, stop when
either side is extinct; at most the configured number of steps.  Returns the
sequence of post-step states together with the final state. -/
def runTraceE (rr : List RobotRule) (mr : List MonsterRule) :
    Nat → SimState → Except PyErr (List SimState × SimState)
  | 0, st => .ok ([], st)
  | k + 1, st =>
    if (st.monsters.filter (·.alive)).length == 0 then .ok ([], st)
    else
      match stepE rr mr st with
      | .error e => .error e
      | .ok st1 =>
        if (st1.robots.filter (·.alive)).length == 0 ||
           (st1.monsters.filter (·.alive)).length == 0 then
          .ok ([st1], st1)
        else
          match runTraceE rr mr k st1 with
          | .error e => .error e
          | .ok (tr, fin) => .ok (st1 :: tr, fin)

/-- A whole run: initialization followed by the step loop; the trace starts
with the initial state. -/
def runSimulationE (cfg : Config) (rr : List RobotRule) (mr : List MonsterRule)
    (rs : RS) : Except PyErr (List SimState × SimState) :=
  let st0 := initSimulation cfg rs
  match runTraceE rr mr cfg.simulationSteps st0 with
  | .error e => .error e
  | .ok (tr, fin) => .ok (st0 :: tr, fin)

/-- The sequence of world states (the observable the determinism property
speaks about) of a run, when the run does not raise. -/
def runWorldTrace (cfg : Config) (rr : List RobotRule) (mr : List MonsterRule)
    (rs : RS) : Option (List World) :=
  match runSimulationE cfg rr mr rs with
  | .ok (tr, _) => some (tr.map (·.env.world))
  | .error _ => none

/-- Iterated `perceive`/`act` calls of a single monster, as in the monster
phase of the scheduler loop (one output per call). -/
def monsterRun (rules : List MonsterRule) : Nat → Env → Monster → RS → List MAction
  | 0, _, _, _ => []
  | k + 1, env, m, rs =>
    let p := monsterPerceive env.world m
    let (a, m1, env1, rs1, _) := monsterAct rules env m p rs
    a :: monsterRun rules k env1 m1 rs1

/-! ## Theorems -/

/-- **C4.**  For every robot rule row whose `Energometro` column equals 1 and
every perception, the row matches the perception if and only if the
perception's `Energometro` value equals 1, irrespective of the other seven
sensor columns of the row and of the perception. -/
theorem energometro_short_circuit (r : RobotRule) (p : RobotPerception)
    (h : r.energometro = 1) :
    matchesRobotPerception r p = true ↔ p.energometro = 1 := by
  unfold matchesRobotPerception
  simp [h]

/-- Witness for C4: a rule row with `Energometro = 1` whose other sensor
columns all disagree with the perception still matches it. -/
theorem energometro_short_circuit_witness :
    ({ energometro := 1, lado1Top := 0, lado2Left := 0, vacuoscopioFront := 0,
       lado0Front := 0, roboscannerFront := 0, lado3Right := 0, lado4Down := 0,
       regla := 7, accion := RAction.act "destroy" [] } : RobotRule).energometro = 1 ∧
    (matchesRobotPerception
      { energometro := 1, lado1Top := 0, lado2Left := 0, vacuoscopioFront := 0,
        lado0Front := 0, roboscannerFront := 0, lado3Right := 0, lado4Down := 0,
        regla := 7, accion := RAction.act "destroy" [] }
      { energometro := 1, lado1Top := 1, lado2Left := 1, vacuoscopioFront := -1,
        lado0Front := 1, roboscannerFront := 2, lado3Right := 1, lado4Down := 1 } = true ↔
      ({ energometro := 1, lado1Top := 1, lado2Left := 1, vacuoscopioFront := -1,
         lado0Front := 1, roboscannerFront := 2, lado3Right := 1,
         lado4Down := 1 } : RobotPerception).energometro = 1) :=
  ⟨rfl, energometro_short_circuit _ _ rfl⟩

/-- **C5.**  When the perception has `Vacuoscopio_Front = -1`, the decision
procedure of `Robot.act` bypasses memory entirely: the chosen action is
exactly the rule-book lookup on the perception, no memory action is
recorded, and the step is marked rule-sourced — for every memory content,
including one holding a matching stored experience. -/
theorem rule35_bypasses_memory (rules : List RobotRule) (memory : List MemEntry)
    (p : RobotPerception) (h : p.vacuoscopioFront = -1) :
    (robotDecide rules memory p).action = getRobotAction rules p ∧
    (robotDecide rules memory p).memoryAction = none ∧
    (robotDecide rules memory p).usesMemory = 0 ∧
    (robotDecide rules memory p).usesRule = 1 := by
  unfold robotDecide
  simp [h]

/-- Witness for C5: with `Vacuoscopio_Front = -1` and a memory whose stored
experience matches the current perception on all eight key sensors, the
decision is still the rule lookup. -/
theorem rule35_bypasses_memory_witness :
    (let p : RobotPerception :=
      { energometro := 0, lado1Top := 0, lado2Left := 0, vacuoscopioFront := -1,
        lado0Front := 0, roboscannerFront := 0, lado3Right := 0, lado4Down := 0 }
     let memory : List MemEntry :=
      [{ step := 0, perceptions := p, action := RAction.act "idle" [],
         position := (2, 2, 2) }]
     perceptionsMatch p p = true ∧
     consultMemory memory p = some (RAction.act "idle" []) ∧
     p.vacuoscopioFront = -1 ∧
     ((robotDecide [] memory p).action = getRobotAction [] p ∧
      (robotDecide [] memory p).memoryAction = none ∧
      (robotDecide [] memory p).usesMemory = 0 ∧
      (robotDecide [] memory p).usesRule = 1)) :=
  ⟨by decide, by decide, rfl, rule35_bypasses_memory _ _ _ rfl⟩

/-- **C8.**  `Robot._save_to_memory` keeps the memory length at or below the
configured cap, the new length is `min (old + 1) cap`, and the resulting
memory is a suffix of the old memory with the new experience appended: the
oldest entries are evicted first and the most recent entries are kept in
order. -/
theorem memory_bounded_fifo (r : Robot) (p : RobotPerception) (a : RAction)
    (hpos : 0 < r.memoryLimit) (hlen : r.memory.length ≤ r.memoryLimit) :
    (saveToMemory r p a).length ≤ r.memoryLimit ∧
    (saveToMemory r p a).length = min (r.memory.length + 1) r.memoryLimit ∧
    saveToMemory r p a <:+
      r.memory ++ [{ step := r.memory.length, perceptions := p, action := a,
                     position := r.position }] := by
  unfold saveToMemory pySliceLast
  set m := r.memory ++ [({ step := r.memory.length, perceptions := p, action := a,
                           position := r.position } : MemEntry)] with hm
  have hml : m.length = r.memory.length + 1 := by simp [hm]
  by_cases hgt : m.length > r.memoryLimit
  · have hk0 : (r.memoryLimit == 0) = false := by
      simp [Nat.pos_iff_ne_zero.mp hpos]
    simp only [hgt, if_true, hk0, if_false]
    refine ⟨?_, ?_, List.drop_suffix _ _⟩
    · simp [List.length_drop]
      omega
    · simp [List.length_drop]
      omega
  · simp only [hgt, if_false]
    exact ⟨by omega, by omega, List.suffix_refl m⟩

/-- Witness for C8: a full memory of length 2 at cap 2 evicts its oldest
entry on append. -/
theorem memory_bounded_fifo_witness :
    (let e : RobotPerception :=
      { energometro := 0, lado1Top := 0, lado2Left := 0, vacuoscopioFront := 0,
        lado0Front := 0, roboscannerFront := 0, lado3Right := 0, lado4Down := 0 }
     let r : Robot :=
      { id := 1, position := (2, 2, 2), orientation := (0, 0, 1), alive := true,
        monstersDestroyed := 0, robotsCollided := 0,
        memory := [{ step := 0, perceptions := e, action := RAction.act "idle" [],
                     position := (2, 2, 2) },
                   { step := 1, perceptions := e, action := RAction.act "idle" [],
                     position := (2, 2, 2) }],
        memoryLimit := 2, previousPosition := none, collidedWithEmpty := false,
        vacuscopeMemory := 0 }
     0 < r.memoryLimit ∧ r.memory.length ≤ r.memoryLimit ∧
     ((saveToMemory r e (RAction.act "destroy" [])).length ≤ r.memoryLimit ∧
      (saveToMemory r e (RAction.act "destroy" [])).length =
        min (r.memory.length + 1) r.memoryLimit ∧
      saveToMemory r e (RAction.act "destroy" []) <:+
        r.memory ++ [{ step := r.memory.length, perceptions := e,
                       action := RAction.act "destroy" [],
                       position := r.position }])) :=
  ⟨by decide, by decide, memory_bounded_fifo _ _ _ (by decide) (by decide)⟩

/-- A named neighbor differs from the monster's own cell. -/
theorem monsterDirectionTarget_ne (p : Pos) (dir : String) (t : Pos)
    (h : monsterDirectionTarget p dir = some t) : t ≠ p := by
  obtain ⟨x, y, z⟩ := p
  unfold monsterDirectionTarget at h
  split_ifs at h <;>
    first
    | exact Option.noConfusion h
    | (simp only [Option.some.injEq] at h; subst h;
       intro hq; simp only [Prod.mk.injEq] at hq; omega)

/-- **C10.**  `Monster._move_to_direction` relocates the monster exactly when
the named neighbor is in bounds with lattice state free (`0`); the agent
registries are never consulted, so the same move happens for any robot or
monster occupancy of the target cell. -/
theorem monster_move_ignores_occupancy (w : World)
    (rp mp rp2 mp2 : List (Nat × Pos)) (m : Monster) (dir : String) (t : Pos)
    (h : monsterDirectionTarget m.position dir = some t) :
    ((monsterMoveToDirection ⟨w, rp, mp⟩ m dir).1.position =
      if isValidPosition w t then t else m.position) ∧
    ((monsterMoveToDirection ⟨w, rp, mp⟩ m dir).1.position = t ↔
      (inBoundsB w.n t = true ∧ cellValue w t = 0)) ∧
    (monsterMoveToDirection ⟨w, rp, mp⟩ m dir).1.position =
      (monsterMoveToDirection ⟨w, rp2, mp2⟩ m dir).1.position := by
  have hne := monsterDirectionTarget_ne m.position dir t h
  have hvalid : isValidPosition w t = true ↔
      (inBoundsB w.n t = true ∧ cellValue w t = 0) := by
    unfold isValidPosition
    simp [Bool.and_eq_true, beq_iff_eq]
  have e1 : ∀ rp0 mp0, monsterMoveToDirection ⟨w, rp0, mp0⟩ m dir =
      (if isValidPosition w t then
        ({ m with position := t },
         updateMonsterPosition ⟨w, rp0, mp0⟩ m.id t)
       else (m, ⟨w, rp0, mp0⟩)) := by
    intro rp0 mp0
    unfold monsterMoveToDirection
    rw [h]
  by_cases hv : isValidPosition w t = true
  · rw [e1 rp mp, e1 rp2 mp2, if_pos hv, hv]
    refine ⟨by simp, ?_, rfl⟩
    exact iff_of_true rfl (hvalid.mp hv)
  · have hv2 : isValidPosition w t = false := by simpa using hv
    rw [e1 rp mp, e1 rp2 mp2, if_neg hv, hv2]
    refine ⟨by simp, ?_, rfl⟩
    constructor
    · intro hq; exact absurd hq.symm hne
    · intro hc; exact absurd (hvalid.mpr hc) hv

/-- Witness for C10: the neighbor token `Top` of a monster at `(2,2,2)` in a
5-lattice with a clear interior; the target `(2,2,3)` is reached even though
the registries place another monster and a robot exactly there. -/
theorem monster_move_ignores_occupancy_witness :
    (let w : World := { n := 5, empties := [] }
     let m : Monster := { id := 1, position := (2, 2, 2), alive := true, K := 3,
                          p := 1 / 2, stepsSinceLastAction := 0, lastAction := none }
     monsterDirectionTarget m.position "Top" = some ((2 : Int), (2 : Int), (3 : Int)) ∧
     (((monsterMoveToDirection ⟨w, [], [(1, (2, 2, 2))]⟩ m "Top").1.position =
        if isValidPosition w ((2 : Int), (2 : Int), (3 : Int)) then
          ((2 : Int), (2 : Int), (3 : Int)) else m.position) ∧
      ((monsterMoveToDirection ⟨w, [], [(1, (2, 2, 2))]⟩ m "Top").1.position =
          ((2 : Int), (2 : Int), (3 : Int)) ↔
        (inBoundsB w.n ((2 : Int), (2 : Int), (3 : Int)) = true ∧
         cellValue w ((2 : Int), (2 : Int), (3 : Int)) = 0)) ∧
      (monsterMoveToDirection ⟨w, [], [(1, (2, 2, 2))]⟩ m "Top").1.position =
        (monsterMoveToDirection
          ⟨w, [(9, (2, 2, 3))], [(1, (2, 2, 2)), (2, (2, 2, 3))]⟩ m "Top").1.position)) :=
  ⟨rfl, monster_move_ignores_occupancy _ _ _ _ _ _ _ _ rfl⟩

/-! ### C9: the move_random candidate filter -/

/-- A robot heading `+x` used in the C9 scenario. -/
def cxRobot : Robot :=
  { mkRobot defaultConfig 1 (2, 2, 2) with orientation := (1, 0, 0) }

/-- A clear 5-lattice environment holding only that robot. -/
def cxEnv : Env :=
  { world := { n := 5, empties := [] },
    robotPositions := [(1, (2, 2, 2))], monsterPositions := [] }

/-- **C9 counterexample.**  The token `x+90` is listed, and actually
executing it at heading `+x` changes the orientation (the executed relative
rotation sends `+x` to `+y`), yet `_filter_effective_rotations` excludes it:
the candidate set is not the set of direction tokens whose execution would
change the orientation. -/
theorem move_random_filter_counterexample :
    "x+90" ∈ ["x+90", "z+90"] ∧
    ("x+90" ∉ filterEffectiveRotations ((1 : Int), (0 : Int), (0 : Int))
        ["x+90", "z+90"]) ∧
    calcRelativeRotation ((1 : Int), (0 : Int), (0 : Int)) "x+90" =
      ((0 : Int), (1 : Int), (0 : Int)) ∧
    (robotMoveInDirection cxEnv cxRobot "x+90").1.orientation ≠ cxRobot.orientation := by
  decide

/-- An element picked by index modulo the length lies in the list. -/
theorem getD_mod_mem (l : List α) (d : α) (n : Nat) (h : l ≠ []) :
    l.getD (n % l.length) d ∈ l := by
  have hl : 0 < l.length := List.length_pos.mpr h
  have hm : n % l.length < l.length := Nat.mod_lt _ hl
  rw [List.getD_eq_getElem l d hm]
  exact List.getElem_mem hm

/-- The `move_random` branch of `_calculate_new_state`, reduced. -/
theorem calcNS_move_random (env : Env) (r : Robot) (d0 : String)
    (rest : List String) (rs : RS) :
    calculateNewStateE env r (RAction.act "move_random" (d0 :: rest)) rs =
      (let eff := filterEffectiveRotations r.orientation (d0 :: rest)
       let dr := if eff.isEmpty then (d0, rs) else randChoice eff d0 rs
       if dr.1 == "z+90" then
         .ok ((calcZForwardPosition env r, r.orientation, dr.1), dr.2)
       else if dr.1 == "x+90" || dr.1 == "x-90" || dr.1 == "y+90" || dr.1 == "y-90" then
         .ok ((r.position, calcRelativeRotation r.orientation dr.1, dr.1), dr.2)
       else .ok ((r.position, r.orientation, dr.1), dr.2)) := rfl

/-- **C9 amended.**  In `move_random`, a listed token is a candidate iff it
is not one of the four rotation tokens whose global axis-rotation formula
fixes the current orientation (translation tokens are always candidates);
when no candidate remains the first listed direction is executed, and
otherwise the executed direction is one of the candidates. -/
theorem move_random_filter_amended (o : Orient) (dirs : List String) (d : String)
    (env : Env) (r : Robot) (rs : RS) (d0 : String) (rest : List String)
    (hd : d ∈ dirs) (hdirs : dirs = d0 :: rest) :
    (d ∈ filterEffectiveRotations o dirs ↔
      ((d = "x+90" ∨ d = "x-90" ∨ d = "y+90" ∨ d = "y-90") →
        globalRotation o d ≠ o)) ∧
    (filterEffectiveRotations r.orientation dirs = [] →
      ∃ ns, calculateNewStateE env r (RAction.act "move_random" dirs) rs =
              .ok (ns, rs) ∧ ns.2.2 = d0) ∧
    (filterEffectiveRotations r.orientation dirs ≠ [] →
      ∃ ns rs1, calculateNewStateE env r (RAction.act "move_random" dirs) rs =
                  .ok (ns, rs1) ∧
        ns.2.2 ∈ filterEffectiveRotations r.orientation dirs) := by
  refine ⟨?_, ?_, ?_⟩
  · unfold filterEffectiveRotations
    rw [List.mem_filter]
    by_cases hc : d = "x+90" ∨ d = "x-90" ∨ d = "y+90" ∨ d = "y-90"
    · have hb : (d == "x+90" || d == "x-90" || d == "y+90" || d == "y-90") = true := by
        rcases hc with h | h | h | h <;> simp [h]
      simp [hd, hb, hc, bne_iff_ne]
    · have hb : (d == "x+90" || d == "x-90" || d == "y+90" || d == "y-90") = false := by
        push_neg at hc
        simp [hc.1, hc.2.1, hc.2.2.1, hc.2.2.2]
      simp [hd, hb, hc]
  · intro hfe
    subst hdirs
    rw [calcNS_move_random]
    simp only [hfe, List.isEmpty_nil, if_true]
    split_ifs <;> exact ⟨_, rfl, rfl⟩
  · intro hfe
    subst hdirs
    rw [calcNS_move_random]
    have hne : (filterEffectiveRotations r.orientation (d0 :: rest)).isEmpty = false := by
      simpa [List.isEmpty_iff] using hfe
    simp only [hne, Bool.false_eq_true, if_false, randChoice, nextNat]
    have hmem : ((filterEffectiveRotations r.orientation (d0 :: rest)).getD
        (rs.headD 0 % (filterEffectiveRotations r.orientation (d0 :: rest)).length) d0) ∈
        filterEffectiveRotations r.orientation (d0 :: rest) :=
      getD_mod_mem _ _ _ hfe
    split_ifs <;> exact ⟨_, _, rfl, hmem⟩

/-- Witness for C9 amended: heading `+z` with listed tokens
`[y+90, z+90]`; both hypotheses hold at this input. -/
theorem move_random_filter_amended_witness :
    ("y+90" ∈ ["y+90", "z+90"] ∧ (["y+90", "z+90"] : List String) = "y+90" :: ["z+90"]) ∧
    (("y+90" ∈ filterEffectiveRotations ((0 : Int), (0 : Int), (1 : Int)) ["y+90", "z+90"] ↔
      (("y+90" = "x+90" ∨ "y+90" = "x-90" ∨ "y+90" = "y+90" ∨ "y+90" = "y-90") →
        globalRotation ((0 : Int), (0 : Int), (1 : Int)) "y+90" ≠
          ((0 : Int), (0 : Int), (1 : Int)))) ∧
     (filterEffectiveRotations cxRobot.orientation ["y+90", "z+90"] = [] →
      ∃ ns, calculateNewStateE cxEnv cxRobot
              (RAction.act "move_random" ["y+90", "z+90"]) [] = .ok (ns, []) ∧
            ns.2.2 = "y+90") ∧
     (filterEffectiveRotations cxRobot.orientation ["y+90", "z+90"] ≠ [] →
      ∃ ns rs1, calculateNewStateE cxEnv cxRobot
                  (RAction.act "move_random" ["y+90", "z+90"]) [] = .ok (ns, rs1) ∧
        ns.2.2 ∈ filterEffectiveRotations cxRobot.orientation ["y+90", "z+90"])) :=
  ⟨⟨by decide, rfl⟩,
   move_random_filter_amended _ _ _ _ _ _ _ _ (by decide) rfl⟩

/-! ### C7: the boundary-bounce scenario S1 -/

/-- The N=5 lattice of scenario S1: the boundary shell is empty
(`_create_boundaries`) and the interior is clear, as the scenario's
clear-forward-path precondition requires. -/
def s1World : World := { n := 5, empties := [] }

/-- A rule row mapping the all-clear perception to `move [z+90]`. -/
def s1RowClear : RobotRule :=
  { energometro := 0, lado1Top := 0, lado2Left := 0, vacuoscopioFront := 0,
    lado0Front := 0, roboscannerFront := 0, lado3Right := 0, lado4Down := 0,
    regla := 1, accion := RAction.act "move" ["z+90"] }

/-- A rule row mapping the `Vacuoscopio_Front = -1` perception to
`move [z+90]`, so the scenario repeats the forward move. -/
def s1RowVacuo : RobotRule := { s1RowClear with vacuoscopioFront := -1, regla := 2 }

/-- The S1 rule table. -/
def s1Rules : List RobotRule := [s1RowClear, s1RowVacuo]

/-- S1 initial state: one robot at `(2,2,2)` heading `+z`, no monsters. -/
def s1State0 : SimState :=
  { env := { world := s1World, robotPositions := [(1, (2, 2, 2))],
             monsterPositions := [] },
    robots := [mkRobot defaultConfig 1 (2, 2, 2)], monsters := [], rs := [],
    stepIdx := 0, robotLog := [], monsterLog := [],
    monstersDestroyedByCollision := 0, robotsDestroyed := 0 }

/-- Iterate the scheduler step on scenario S1 (the steps do not raise; the
theorems verify the `.ok` equalities explicitly). -/
def s1After : Nat → SimState
  | 0 => s1State0
  | k + 1 =>
    match stepE s1Rules [] (s1After k) with
    | .ok st => st
    | .error _ => s1After k

/-- **C7 counterexample.**  In the N=5 lattice the shell cell `(2,2,4)` is
already boundary-empty, so the bounce happens one cell earlier than the
claim states: after three `move [z+90]` steps from `(2,2,2)` the robot
stands at `(2,2,3)`, not `(2,2,4)`. -/
theorem boundary_bounce_counterexample :
    stepE s1Rules [] s1State0 = .ok (s1After 1) ∧
    stepE s1Rules [] (s1After 1) = .ok (s1After 2) ∧
    stepE s1Rules [] (s1After 2) = .ok (s1After 3) ∧
    (s1After 3).robots.map (·.position) = [((2 : Int), (2 : Int), (3 : Int))] ∧
    (s1After 3).robots.map (·.position) ≠ [((2 : Int), (2 : Int), (4 : Int))] := by
  decide

/-- **C7 amended.**  Scenario S1 on the embedded code: the first move takes
the robot from `(2,2,2)` to `(2,2,3)`; the second attempt targets `(2,2,4)`,
which is boundary-empty, so the position stays `(2,2,3)` and
`vacuscope_memory` becomes `-1`; at the next step the Vacuoscopio sensor
reads `-1`, the rule-35 row (row 2) fires without memory, and the position
still stays `(2,2,3)`. -/
theorem boundary_bounce_amended :
    (s1After 1).robots.map (·.position) = [((2 : Int), (2 : Int), (3 : Int))] ∧
    isEmptyAt s1World ((2 : Int), (2 : Int), (4 : Int)) = true ∧
    (s1After 2).robots.map (·.position) = [((2 : Int), (2 : Int), (3 : Int))] ∧
    (s1After 2).robots.map (·.vacuscopeMemory) = [(-1 : Int)] ∧
    (s1After 2).robots.map
      (fun r => (robotPerceive (s1After 2).env r).1.vacuoscopioFront) = [(-1 : Int)] ∧
    ((s1After 3).robotLog.map
      (fun kv => (kv.2.sensors.vacuoscopioFront, kv.2.ruleNum, kv.2.usesMemory))).getLast? =
      some ((-1 : Int), some 2, 0) ∧
    (s1After 3).robots.map (·.position) = [((2 : Int), (2 : Int), (3 : Int))] := by
  decide

/-! ### C2: exception propagation out of a step -/

/-- A rule table whose single row maps the all-clear perception to the
payload with tipo `rotate` and an empty `directions` list. -/
def c2Rules : List RobotRule :=
  [{ energometro := 0, lado1Top := 0, lado2Left := 0, vacuoscopioFront := 0,
     lado0Front := 0, roboscannerFront := 0, lado3Right := 0, lado4Down := 0,
     regla := 1, accion := RAction.act "rotate" [] }]

/-- One robot at `(2,2,2)` in a clear N=5 lattice, no monsters. -/
def c2State : SimState :=
  { env := { world := { n := 5, empties := [] },
             robotPositions := [(1, (2, 2, 2))], monsterPositions := [] },
    robots := [mkRobot defaultConfig 1 (2, 2, 2)], monsters := [], rs := [],
    stepIdx := 0, robotLog := [], monsterLog := [],
    monstersDestroyedByCollision := 0, robotsDestroyed := 0 }

/-- **C2.**  A full scheduler step raises to its caller: the robot's matched
rule action is `rotate` with an empty direction list, and
`Robot._calculate_new_state` then evaluates the unbound local `direction`
(its `elif direction == 'y+90'` arm is dedented out of the
`if directions:` block), an `UnboundLocalError` that no surrounding handler
catches. -/
theorem step_raises_on_empty_rotate :
    getRobotAction c2Rules
      (robotPerceive c2State.env (mkRobot defaultConfig 1 (2, 2, 2))).1 =
      RAction.act "rotate" [] ∧
    stepE c2Rules [] c2State = .error PyErr.unboundLocalError := by
  decide

/-! ### C3: determinism -/

/-- The configuration of `config.py` restricted to one scheduler step. -/
def c3Config : Config := { defaultConfig with simulationSteps := 1 }

unseal Rat.mul Rat.inv Rat.add Rat.sub in
/-- **C3 counterexample.**  The program has no seed input: `config.py`
defines no `RANDOM_SEED` and `random.seed` is never called, so two runs with
identical configuration and rule tables are distinguished only by the state
of the ambient global `random` stream — and with different ambient streams
they produce different world-state sequences. -/
theorem determinism_counterexample :
    runWorldTrace c3Config [] [] [0, 0, 0, 0, 0] ≠
      runWorldTrace c3Config [] [] [7, 13, 22, 5, 9] := by
  decide

/-- **C3 amended.**  A run is a pure function of the configuration, the rule
tables and the single ambient random stream: two runs with the same
configuration, the same rule tables and the same initial stream state
produce identical state sequences (hence identical world states, logs and
summaries). -/
theorem determinism_amended (cfg : Config) (rr : List RobotRule)
    (mr : List MonsterRule) (rs1 rs2 : RS) (h : rs1 = rs2) :
    runSimulationE cfg rr mr rs1 = runSimulationE cfg rr mr rs2 ∧
    runWorldTrace cfg rr mr rs1 = runWorldTrace cfg rr mr rs2 := by
  subst h
  exact ⟨rfl, rfl⟩

/-! ### C6: monster K/p gating -/

/-- `Monster._move_to_direction` changes only the position. -/
theorem monsterMoveToDirection_preserves (env : Env) (m : Monster) (d : String) :
    (monsterMoveToDirection env m d).1.alive = m.alive ∧
    (monsterMoveToDirection env m d).1.stepsSinceLastAction = m.stepsSinceLastAction ∧
    (monsterMoveToDirection env m d).1.K = m.K := by
  unfold monsterMoveToDirection
  cases monsterDirectionTarget m.position d with
  | none => exact ⟨rfl, rfl, rfl⟩
  | some t =>
    simp only []
    split_ifs <;> exact ⟨rfl, rfl, rfl⟩

/-- `Monster._execute_action` changes only the position (and the stream). -/
theorem monsterExecuteAction_preserves (env : Env) (m : Monster) (a : MAction)
    (rs : RS) :
    (monsterExecuteAction env m a rs).1.alive = m.alive ∧
    (monsterExecuteAction env m a rs).1.stepsSinceLastAction = m.stepsSinceLastAction ∧
    (monsterExecuteAction env m a rs).1.K = m.K := by
  cases a with
  | wait => exact ⟨rfl, rfl, rfl⟩
  | moverHacia d => exact monsterMoveToDirection_preserves env m d
  | moverAleatorio dirs =>
    simp only [monsterExecuteAction]
    rcases hrc : randChoice dirs (dirs.headD "") rs with ⟨d, rs1⟩
    split_ifs
    · exact ⟨rfl, rfl, rfl⟩
    · simp only [hrc]
      exact monsterMoveToDirection_preserves env m d
  | unrecognized s => exact ⟨rfl, rfl, rfl⟩

/-- The gating shape of one `Monster.act` call on a live monster: the
counter is incremented first; a cooldown wait keeps the incremented counter,
every other branch resets it to zero; the monster stays alive with the same
`K`; and a non-wait emission implies the incremented counter had reached `K`
and the counter was reset. -/
theorem monsterAct_spec (rules : List MonsterRule) (env : Env) (m : Monster)
    (p : MonsterPerception) (rs : RS) (h : m.alive = true) :
    (monsterAct rules env m p rs).2.1.alive = true ∧
    (monsterAct rules env m p rs).2.1.K = m.K ∧
    (monsterAct rules env m p rs).2.1.stepsSinceLastAction =
      (if m.stepsSinceLastAction + 1 < m.K then m.stepsSinceLastAction + 1 else 0) ∧
    ((monsterAct rules env m p rs).1 ≠ MAction.wait →
      m.K ≤ m.stepsSinceLastAction + 1 ∧
      (monsterAct rules env m p rs).2.1.stepsSinceLastAction = 0) := by
  unfold monsterAct
  simp only [h, Bool.not_true, Bool.false_eq_true, if_false]
  split_ifs with h1 h2
  · exact ⟨rfl, rfl, rfl, fun hc => absurd rfl hc⟩
  · exact ⟨rfl, rfl, rfl, fun hc => absurd rfl hc⟩
  · exact ⟨(monsterExecuteAction_preserves _ _ _ _).1, (monsterExecuteAction_preserves _ _ _ _).2.2,
           rfl, fun _ => ⟨by omega, rfl⟩⟩

/-- In an iterated run of a live monster, a non-wait emission at index `j`
requires the counter (which started at the monster's current value, grows by
at most one per call and resets on every non-cooldown branch) to have
reached `K`: `K ≤ steps + j + 1`. -/
theorem monsterRun_nonwait_lower (rules : List MonsterRule) :
    ∀ (j k : Nat) (env : Env) (m : Monster) (rs : RS) (a : MAction),
      m.alive = true →
      (monsterRun rules k env m rs).get? j = some a → a ≠ MAction.wait →
      m.K ≤ m.stepsSinceLastAction + j + 1 := by
  intro j
  induction j with
  | zero =>
    intro k env m rs a h ha hwa
    cases k with
    | zero => simp [monsterRun] at ha
    | succ k1 =>
      simp only [monsterRun, List.get?] at ha
      obtain rfl : (monsterAct rules env m (monsterPerceive env.world m) rs).1 = a := by
        injection ha
      obtain ⟨-, -, -, hnw⟩ := monsterAct_spec rules env m (monsterPerceive env.world m) rs h
      have := (hnw hwa).1
      omega
  | succ j1 ih =>
    intro k env m rs a h ha hwa
    cases k with
    | zero => simp [monsterRun] at ha
    | succ k1 =>
      obtain ⟨h1, h2, h3, -⟩ := monsterAct_spec rules env m (monsterPerceive env.world m) rs h
      simp only [monsterRun, List.get?] at ha
      have ih2 := ih k1 _ _ _ _ h1 ha hwa
      rw [h2] at ih2
      have hle : (monsterAct rules env m (monsterPerceive env.world m) rs).2.1.stepsSinceLastAction ≤
          m.stepsSinceLastAction + 1 := by
        rw [h3]; split_ifs <;> omega
      omega

/-- Two non-wait emissions of an iterated live-monster run are at least `K`
calls apart. -/
theorem monsterRun_separation (rules : List MonsterRule) :
    ∀ (i j k : Nat) (env : Env) (m : Monster) (rs : RS) (a b : MAction),
      m.alive = true → i < j →
      (monsterRun rules k env m rs).get? i = some a → a ≠ MAction.wait →
      (monsterRun rules k env m rs).get? j = some b → b ≠ MAction.wait →
      i + m.K ≤ j := by
  intro i
  induction i with
  | zero =>
    intro j k env m rs a b h hij ha hwa hb hwb
    cases k with
    | zero => simp [monsterRun] at ha
    | succ k1 =>
      obtain ⟨h1, h2, h3, hnw⟩ := monsterAct_spec rules env m (monsterPerceive env.world m) rs h
      cases j with
      | zero => omega
      | succ j1 =>
        simp only [monsterRun, List.get?] at ha hb
        obtain rfl : (monsterAct rules env m (monsterPerceive env.world m) rs).1 = a := by
          injection ha
        have hlow := monsterRun_nonwait_lower rules j1 k1 _ _ _ _ h1 hb hwb
        rw [h2, (hnw hwa).2] at hlow
        omega
  | succ i1 ih =>
    intro j k env m rs a b h hij ha hwa hb hwb
    cases k with
    | zero => simp [monsterRun] at ha
    | succ k1 =>
      obtain ⟨h1, h2, -, -⟩ := monsterAct_spec rules env m (monsterPerceive env.world m) rs h
      cases j with
      | zero => omega
      | succ j1 =>
        simp only [monsterRun, List.get?] at ha hb
        have := ih j1 k1 _ _ _ _ _ h1 (by omega) ha hwa hb hwb
        rw [h2] at this
        omega

/-- **C6.**  For a live monster, `Monster.act` first increments
`steps_since_last_action`; while the incremented counter is below `K` it
emits `wait` keeping the incremented counter; otherwise it draws `u` from
the stream and either (if `u > p`) resets the counter and emits `wait`, or
resolves the action by the monster rule lookup and resets the counter.
Consequently two non-wait emissions of an iterated run of a live monster are
at least `K` calls apart — at least `K - 1` intervening wait steps. -/
theorem monster_gating (rules : List MonsterRule) (env : Env) (m : Monster)
    (p : MonsterPerception) (rs : RS)
    (k i j : Nat) (env0 : Env) (m0 : Monster) (rs0 : RS) (a b : MAction)
    (h : m.alive = true) (h0 : m0.alive = true) (hij : i < j)
    (ha : (monsterRun rules k env0 m0 rs0).get? i = some a)
    (hwa : a ≠ MAction.wait)
    (hb : (monsterRun rules k env0 m0 rs0).get? j = some b)
    (hwb : b ≠ MAction.wait) :
    ((monsterAct rules env m p rs).2.1.stepsSinceLastAction =
      (if m.stepsSinceLastAction + 1 < m.K then m.stepsSinceLastAction + 1 else 0)) ∧
    (m.stepsSinceLastAction + 1 < m.K →
      (monsterAct rules env m p rs).1 = MAction.wait) ∧
    (¬ m.stepsSinceLastAction + 1 < m.K → (nextUnit rs).1 > m.p →
      (monsterAct rules env m p rs).1 = MAction.wait) ∧
    (¬ m.stepsSinceLastAction + 1 < m.K → ¬ (nextUnit rs).1 > m.p →
      (monsterAct rules env m p rs).1 = getMonsterAction rules p) ∧
    i + m0.K ≤ j := by
  refine ⟨(monsterAct_spec rules env m p rs h).2.2.1, ?_, ?_, ?_,
          monsterRun_separation rules i j k env0 m0 rs0 a b h0 hij ha hwa hb hwb⟩
  all_goals (unfold monsterAct;
             simp only [h, Bool.not_true, Bool.false_eq_true, if_false])
  · intro h1
    simp [h1]
  · intro h1 h2
    simp [h1, h2]
  · intro h1 h2
    simp [h1, h2]

/-- The environment of the C6 witness: an N=2 lattice is all boundary, so
every monster perception reads `-1` in all six directions. -/
def c6Env : Env :=
  { world := { n := 2, empties := [] }, robotPositions := [],
    monsterPositions := [(1, (1, 1, 1))] }

/-- A monster rule matching the all-blocked perception. -/
def c6Rule : MonsterRule :=
  { top := -1, left := -1, front := -1, right := -1, down := -1, behind := -1,
    regla := 1, accion := MAction.moverHacia "Top" }

/-- A monster with `K = 1` and `p = 1` (eligible every call, never
probability-gated with a zero draw). -/
def c6Monster : Monster :=
  { id := 1, position := (1, 1, 1), alive := true, K := 1, p := 1,
    stepsSinceLastAction := 0, lastAction := none }

unseal Rat.mul Rat.inv Rat.add Rat.sub in
/-- Witness for C6: with `K = 1` the monster emits its rule action on two
consecutive calls (`i = 0`, `j = 1`, separation `0 + 1 ≤ 1`), and a `K = 3`
sibling stays on cooldown with counter 1 after one call. -/
theorem monster_gating_witness :
    (monsterRun [c6Rule] 2 c6Env c6Monster []).get? 0 = some (MAction.moverHacia "Top") ∧
    (monsterRun [c6Rule] 2 c6Env c6Monster []).get? 1 = some (MAction.moverHacia "Top") ∧
    (((monsterAct [c6Rule] c6Env { c6Monster with K := 3 }
        (monsterPerceive c6Env.world c6Monster) []).2.1.stepsSinceLastAction =
      (if ({ c6Monster with K := 3 } : Monster).stepsSinceLastAction + 1 <
          ({ c6Monster with K := 3 } : Monster).K then
        ({ c6Monster with K := 3 } : Monster).stepsSinceLastAction + 1 else 0)) ∧
     (({ c6Monster with K := 3 } : Monster).stepsSinceLastAction + 1 <
         ({ c6Monster with K := 3 } : Monster).K →
       (monsterAct [c6Rule] c6Env { c6Monster with K := 3 }
         (monsterPerceive c6Env.world c6Monster) []).1 = MAction.wait) ∧
     (¬ ({ c6Monster with K := 3 } : Monster).stepsSinceLastAction + 1 <
         ({ c6Monster with K := 3 } : Monster).K →
       (nextUnit []).1 > ({ c6Monster with K := 3 } : Monster).p →
       (monsterAct [c6Rule] c6Env { c6Monster with K := 3 }
         (monsterPerceive c6Env.world c6Monster) []).1 = MAction.wait) ∧
     (¬ ({ c6Monster with K := 3 } : Monster).stepsSinceLastAction + 1 <
         ({ c6Monster with K := 3 } : Monster).K →
       ¬ (nextUnit []).1 > ({ c6Monster with K := 3 } : Monster).p →
       (monsterAct [c6Rule] c6Env { c6Monster with K := 3 }
         (monsterPerceive c6Env.world c6Monster) []).1 =
         getMonsterAction [c6Rule] (monsterPerceive c6Env.world c6Monster)) ∧
     0 + c6Monster.K ≤ 1) := by
  refine ⟨by decide, by decide, ?_⟩
  exact monster_gating [c6Rule] c6Env { c6Monster with K := 3 }
    (monsterPerceive c6Env.world c6Monster) [] 2 0 1 c6Env c6Monster []
    (MAction.moverHacia "Top") (MAction.moverHacia "Top")
    rfl rfl (by decide) (by decide) (by decide) (by decide) (by decide)

/-- Witness for C3 amended, at a concrete stream. -/
theorem determinism_amended_witness :
    ([0, 1, 2] : RS) = [0, 1, 2] ∧
    (runSimulationE c3Config [] [] [0, 1, 2] = runSimulationE c3Config [] [] [0, 1, 2] ∧
     runWorldTrace c3Config [] [] [0, 1, 2] = runWorldTrace c3Config [] [] [0, 1, 2]) :=
  ⟨rfl, determinism_amended _ _ _ _ _ rfl⟩

/-! ### C1: the robot collision sweep -/

/-- The literal pairwise reading of the collision-sweep claim: after the
sweep, for every unordered pair of live co-located robots the smaller id is
alive with its counter incremented by exactly one and the larger id is dead
and unregistered. -/
def robotSweepPairwiseClaim (robots : List Robot) (env : Env) (rd : Nat) : Prop :=
  ∀ a ∈ robots, ∀ b ∈ robots,
    a.alive = true → b.alive = true → a.position = b.position → a.id < b.id →
      (∃ a1, findRobot (handleRobotCollisions robots env rd).1 a.id = some a1 ∧
        a1.alive = true ∧ a1.robotsCollided = a.robotsCollided + 1) ∧
      (∃ b1, findRobot (handleRobotCollisions robots env rd).1 b.id = some b1 ∧
        b1.alive = false) ∧
      hasKey (handleRobotCollisions robots env rd).2.1.robotPositions b.id = false

/-- Three live robots sharing `(3,3,3)`. -/
def c1Robots : List Robot :=
  [mkRobot defaultConfig 1 (3, 3, 3), mkRobot defaultConfig 2 (3, 3, 3),
   mkRobot defaultConfig 3 (3, 3, 3)]

/-- The registry for the three co-located robots. -/
def c1Env : Env :=
  { world := { n := 5, empties := [] },
    robotPositions := [(1, (3, 3, 3)), (2, (3, 3, 3)), (3, (3, 3, 3))],
    monsterPositions := [] }

/-- **C1 counterexample.**  With three live robots sharing a cell the sweep
resolves the pairs `(1,2)`, `(1,3)`, `(2,3)` in order: robot 1 kills robots
2 and 3 and its `robots_collided` counter ends at 2, not at 1 as the
per-pair reading requires (and for the pair `(2,3)` the smaller id 2 does
not survive). -/
theorem collision_sweep_counterexample :
    ¬ robotSweepPairwiseClaim c1Robots c1Env 0 := by
  intro hcl
  obtain ⟨⟨a1, ha1, -, hc⟩, -, -⟩ :=
    hcl (mkRobot defaultConfig 1 (3, 3, 3)) (by decide)
        (mkRobot defaultConfig 2 (3, 3, 3)) (by decide)
        rfl rfl rfl (by decide)
  have hval : (findRobot (handleRobotCollisions c1Robots c1Env 0).1
      (mkRobot defaultConfig 1 (3, 3, 3)).id).map (·.robotsCollided) = some 2 := by
    decide
  rw [ha1] at hval
  have hval2 : a1.robotsCollided = 2 := by simpa using hval
  rw [hval2] at hc
  simp [mkRobot] at hc

/-- `find?` on a per-id map with an id-preserving function. -/
theorem find_map_if (l : List Robot) (i : Nat) (f : Robot → Robot)
    (hf : ∀ r, (f r).id = r.id) (k : Nat) :
    List.find? (fun r => r.id == k) (l.map (fun r => if r.id == i then f r else r)) =
      (List.find? (fun r => r.id == k) l).map (fun r => if r.id == i then f r else r) := by
  induction l with
  | nil => rfl
  | cons r rest ih =>
    simp only [List.map_cons, List.find?_cons]
    have hsame : ((if r.id == i then f r else r).id == k) = (r.id == k) := by
      split_ifs <;> simp [hf]
    rw [hsame]
    cases hrk : (r.id == k) with
    | true => simp
    | false => simpa using ih

theorem findRobot_mapRobot (l : List Robot) (i : Nat) (f : Robot → Robot)
    (hf : ∀ r, (f r).id = r.id) (k : Nat) :
    findRobot (mapRobot l i f) k =
      (findRobot l k).map (fun r => if r.id == i then f r else r) := by
  unfold findRobot mapRobot
  exact find_map_if l i f hf k

theorem resolveRobotPair_eq (robots : List Robot) (env : Env) (rd : Nat)
    (pr : Nat × Nat) :
    resolveRobotPair (robots, env, rd) pr =
      match findRobot robots pr.1, findRobot robots pr.2 with
      | some r1, some r2 =>
        if r1.alive && r2.alive then
          (mapRobot (mapRobot robots pr.1
              fun r => { r with robotsCollided := r.robotsCollided + 1 })
             pr.2 fun r => { r with alive := false },
           { env with robotPositions := delKey env.robotPositions pr.2 }, rd + 1)
        else (robots, env, rd)
      | _, _ => (robots, env, rd) := rfl

theorem resolve_isSome (st : List Robot × Env × Nat) (pr : Nat × Nat) (k : Nat) :
    (findRobot (resolveRobotPair st pr).1 k).isSome = (findRobot st.1 k).isSome := by
  obtain ⟨robots, env, rd⟩ := st
  rw [resolveRobotPair_eq]
  cases h1 : findRobot robots pr.1 <;> cases h2 : findRobot robots pr.2 <;> dsimp only
  case some.some r1 r2 =>
    split_ifs
    · rw [findRobot_mapRobot, findRobot_mapRobot]
      · simp [Option.isSome_map]
      · intro r; rfl
      · intro r; rfl
    · rfl

theorem resolve_alive_of_not_victim (st : List Robot × Env × Nat) (pr : Nat × Nat)
    (k : Nat) (hk : pr.2 ≠ k) :
    (findRobot (resolveRobotPair st pr).1 k).map (·.alive) =
      (findRobot st.1 k).map (·.alive) := by
  obtain ⟨robots, env, rd⟩ := st
  rw [resolveRobotPair_eq]
  cases h1 : findRobot robots pr.1 <;> cases h2 : findRobot robots pr.2 <;> dsimp only
  case some.some r1 r2 =>
    split_ifs
    · rw [findRobot_mapRobot, findRobot_mapRobot]
      · cases h3 : findRobot robots k with
        | none => simp
        | some r =>
          have hrk : r.id = k := by simpa using List.find?_some h3
          have hne2 : (r.id == pr.2) = false := by
            rw [hrk]; simp [Ne.symm hk]
          simp only [Option.map_some', Option.map_map, Option.some.injEq,
                     Function.comp_apply]
          split_ifs <;> simp_all
      · intro r; rfl
      · intro r; rfl
    · rfl

theorem resolve_cases (st : List Robot × Env × Nat) (pr : Nat × Nat) :
    (resolveRobotPair st pr = st ∧
      ((findRobot st.1 pr.1).map (·.alive) = some true →
       (findRobot st.1 pr.2).isSome = true →
       (findRobot st.1 pr.2).map (·.alive) = some false)) ∨
    ((resolveRobotPair st pr).2.1.robotPositions = delKey st.2.1.robotPositions pr.2 ∧
     (findRobot (resolveRobotPair st pr).1 pr.2).map (·.alive) = some false) := by
  obtain ⟨robots, env, rd⟩ := st
  rw [resolveRobotPair_eq]
  cases h1 : findRobot robots pr.1 <;> cases h2 : findRobot robots pr.2 <;> dsimp only
  case none.none => exact Or.inl ⟨rfl, fun hc _ => by simpa using hc⟩
  case none.some r2 => exact Or.inl ⟨rfl, fun hc _ => by simpa using hc⟩
  case some.none r1 => exact Or.inl ⟨rfl, fun _ hc => by simpa using hc⟩
  case some.some r1 r2 =>
    split_ifs with hboth
    · refine Or.inr ⟨rfl, ?_⟩
      have hr2 : r2.id = pr.2 := by simpa using List.find?_some h2
      rw [findRobot_mapRobot, findRobot_mapRobot]
      · rw [h2]
        simp only [Option.map_some', Option.map_map, Option.some.injEq,
                   Function.comp_apply]
        split_ifs <;> simp_all
      · intro r; rfl
      · intro r; rfl
    · refine Or.inl ⟨rfl, fun ha hs => ?_⟩
      simp only [Option.map_some', Option.some.injEq] at ha ⊢
      simp only [ha, Bool.true_and] at hboth
      simpa using hboth

theorem resolve_dead_stays (st : List Robot × Env × Nat) (pr : Nat × Nat) (k : Nat)
    (h : (findRobot st.1 k).map (·.alive) = some false) :
    (findRobot (resolveRobotPair st pr).1 k).map (·.alive) = some false := by
  by_cases hk : pr.2 = k
  · subst hk
    rcases resolve_cases st pr with ⟨heq, -⟩ | ⟨-, hkill⟩
    · rw [heq]; exact h
    · exact hkill
  · rw [resolve_alive_of_not_victim st pr k hk]
    exact h

theorem resolve_victim_dead (st : List Robot × Env × Nat) (pr : Nat × Nat)
    (hfirst : (findRobot st.1 pr.1).map (·.alive) = some true)
    (hsome : (findRobot st.1 pr.2).isSome = true) :
    (findRobot (resolveRobotPair st pr).1 pr.2).map (·.alive) = some false := by
  rcases resolve_cases st pr with ⟨heq, himp⟩ | ⟨-, hkill⟩
  · rw [heq]; exact himp hfirst hsome
  · exact hkill

/-- Deletion produces a sublist of the registry. -/
theorem delKey_sublist (l : List (Nat × Pos)) (k : Nat) : List.Sublist (delKey l k) l := by
  induction l with
  | nil => exact List.Sublist.refl _
  | cons kv rest ih =>
    obtain ⟨k0, v0⟩ := kv
    unfold delKey
    split_ifs
    · exact List.sublist_cons_self _ _
    · exact List.Sublist.cons₂ _ ih

/-- Keys of the registry stay duplicate-free under deletion. -/
theorem delKey_keys_nodup (l : List (Nat × Pos)) (k : Nat)
    (h : (l.map Prod.fst).Nodup) : ((delKey l k).map Prod.fst).Nodup :=
  List.Nodup.sublist ((delKey_sublist l k).map Prod.fst) h

/-- An absent key stays absent under deletion. -/
theorem hasKey_delKey_of_not (l : List (Nat × Pos)) (j k : Nat)
    (h : hasKey l k = false) : hasKey (delKey l j) k = false := by
  induction l with
  | nil => exact h
  | cons kv rest ih =>
    obtain ⟨k0, v0⟩ := kv
    unfold hasKey at h
    simp only [List.any_cons, Bool.or_eq_false_iff] at h
    unfold delKey
    split_ifs with hj
    · exact h.2
    · unfold hasKey
      simp only [List.any_cons, Bool.or_eq_false_iff]
      exact ⟨h.1, ih h.2⟩

/-- Deleting a key from a duplicate-free registry removes it. -/
theorem hasKey_delKey_self (l : List (Nat × Pos)) (k : Nat)
    (h : (l.map Prod.fst).Nodup) : hasKey (delKey l k) k = false := by
  induction l with
  | nil => rfl
  | cons kv rest ih =>
    obtain ⟨k0, v0⟩ := kv
    simp only [List.map_cons, List.nodup_cons] at h
    unfold delKey
    split_ifs with hk
    · have hk0 : k0 = k := by simpa using hk
      subst hk0
      unfold hasKey
      simp only [List.any_eq_false]
      intro kv hkv
      have : kv.1 ≠ k0 := fun he => h.1 (he ▸ List.mem_map_of_mem Prod.fst hkv)
      simpa using this
    · unfold hasKey
      simp only [List.any_cons, Bool.or_eq_false_iff]
      exact ⟨by simpa using hk, ih h.2⟩

/-- One pair resolution preserves the registry invariant for a fixed id
`k`: the keys stay duplicate-free, and if the robot with id `k` is dead
then `k` is not registered. -/
theorem resolve_registry_invariant (st : List Robot × Env × Nat) (pr : Nat × Nat)
    (k : Nat)
    (hnodup : (st.2.1.robotPositions.map Prod.fst).Nodup)
    (hinv : (findRobot st.1 k).map (·.alive) = some false →
      hasKey st.2.1.robotPositions k = false) :
    ((resolveRobotPair st pr).2.1.robotPositions.map Prod.fst).Nodup ∧
    ((findRobot (resolveRobotPair st pr).1 k).map (·.alive) = some false →
      hasKey (resolveRobotPair st pr).2.1.robotPositions k = false) := by
  rcases resolve_cases st pr with ⟨heq, -⟩ | ⟨hreg, -⟩
  · rw [heq]
    exact ⟨hnodup, hinv⟩
  · rw [hreg]
    refine ⟨delKey_keys_nodup _ _ hnodup, fun hdead => ?_⟩
    by_cases hk : pr.2 = k
    · subst hk
      exact hasKey_delKey_self _ _ hnodup
    · rw [resolve_alive_of_not_victim st pr k hk] at hdead
      exact hasKey_delKey_of_not _ _ _ (hinv hdead)

/-- Folding the resolver over pairs that never have `i` as victim keeps the
robot with id `i` alive. -/
theorem fold_alive_of_never_victim :
    ∀ (ps : List (Nat × Nat)) (st : List Robot × Env × Nat) (i : Nat),
      (∀ pr ∈ ps, pr.2 ≠ i) →
      (findRobot st.1 i).map (·.alive) = some true →
      (findRobot (ps.foldl resolveRobotPair st).1 i).map (·.alive) = some true := by
  intro ps
  induction ps with
  | nil => intro st i _ h; exact h
  | cons pr rest ih =>
    intro st i hnv h
    rw [List.foldl_cons]
    refine ih _ i (fun q hq => hnv q (List.mem_cons_of_mem _ hq)) ?_
    rw [resolve_alive_of_not_victim st pr i (hnv pr (List.mem_cons_self _ _))]
    exact h

/-- Folding the resolver keeps a dead robot dead. -/
theorem fold_dead_stays :
    ∀ (ps : List (Nat × Nat)) (st : List Robot × Env × Nat) (k : Nat),
      (findRobot st.1 k).map (·.alive) = some false →
      (findRobot (ps.foldl resolveRobotPair st).1 k).map (·.alive) = some false := by
  intro ps
  induction ps with
  | nil => intro st k h; exact h
  | cons pr rest ih =>
    intro st k h
    rw [List.foldl_cons]
    exact ih _ k (resolve_dead_stays st pr k h)

/-- Folding the resolver over a pair list containing `(i, k)`, where `i` is
never a victim and is alive, leaves the robot with id `k` dead. -/
theorem fold_kill :
    ∀ (ps : List (Nat × Nat)) (st : List Robot × Env × Nat) (i k : Nat),
      (i, k) ∈ ps →
      (∀ pr ∈ ps, pr.2 ≠ i) →
      (findRobot st.1 i).map (·.alive) = some true →
      (findRobot st.1 k).isSome = true →
      (findRobot (ps.foldl resolveRobotPair st).1 k).map (·.alive) = some false := by
  intro ps
  induction ps with
  | nil => intro st i k h; exact absurd h (List.not_mem_nil _)
  | cons pr rest ih =>
    intro st i k hmem hnv halive hsome
    rw [List.foldl_cons]
    rcases List.mem_cons.mp hmem with heq | hrest
    · subst heq
      exact fold_dead_stays rest _ k (resolve_victim_dead st (i, k) halive hsome)
    · refine ih _ i k hrest (fun q hq => hnv q (List.mem_cons_of_mem _ hq)) ?_ ?_
      · rw [resolve_alive_of_not_victim st pr i (hnv pr (List.mem_cons_self _ _))]
        exact halive
      · rw [resolve_isSome st pr k]
        exact hsome

/-- Folding the resolver preserves the registry invariant for a fixed id. -/
theorem fold_registry_invariant :
    ∀ (ps : List (Nat × Nat)) (st : List Robot × Env × Nat) (k : Nat),
      (st.2.1.robotPositions.map Prod.fst).Nodup →
      ((findRobot st.1 k).map (·.alive) = some false →
        hasKey st.2.1.robotPositions k = false) →
      ((findRobot (ps.foldl resolveRobotPair st).1 k).map (·.alive) = some false →
        hasKey (ps.foldl resolveRobotPair st).2.1.robotPositions k = false) := by
  intro ps
  induction ps with
  | nil => intro st k _ h; exact h
  | cons pr rest ih =>
    intro st k hnodup hinv
    rw [List.foldl_cons]
    obtain ⟨hn1, hi1⟩ := resolve_registry_invariant st pr k hnodup hinv
    exact ih _ k hn1 hi1

/-- Soundness of the modelled pair detection: every detected pair comes from
two live co-located robots with ascending ids. -/
theorem detect_sound :
    ∀ (robots : List Robot) (pr : Nat × Nat), pr ∈ detectRobotCollisions robots →
      ∃ x ∈ robots, ∃ y ∈ robots, x.id = pr.1 ∧ y.id = pr.2 ∧
        x.alive = true ∧ y.alive = true ∧ x.position = y.position ∧ pr.1 < pr.2 := by
  intro robots
  induction robots with
  | nil => intro pr h; simp [detectRobotCollisions] at h
  | cons r rest ih =>
    intro pr h
    unfold detectRobotCollisions at h
    rcases List.mem_append.mp h with hl | hr
    · split_ifs at hl with hra
      · obtain ⟨b, hbf, hbeq⟩ := List.mem_map.mp hl
        obtain ⟨hbrest, hbq⟩ := List.mem_filter.mp hbf
        simp only [Bool.and_eq_true, beq_iff_eq, decide_eq_true_eq] at hbq
        refine ⟨r, List.mem_cons_self _ _, b, List.mem_cons_of_mem _ hbrest,
                ?_, ?_, hra, hbq.1.1, hbq.1.2.symm, ?_⟩
        · rw [← hbeq]
        · rw [← hbeq]
        · rw [← hbeq]; exact hbq.2
      · simp at hl
    · obtain ⟨x, hx, y, hy, hrest⟩ := ih pr hr
      exact ⟨x, List.mem_cons_of_mem _ hx, y, List.mem_cons_of_mem _ hy, hrest⟩

/-- Completeness of the modelled pair detection on an id-sorted robot list:
every live co-located ascending pair is detected. -/
theorem detect_complete :
    ∀ (robots : List Robot), List.Pairwise (fun x y => x.id < y.id) robots →
      ∀ x ∈ robots, ∀ y ∈ robots,
        x.alive = true → y.alive = true → x.position = y.position → x.id < y.id →
        (x.id, y.id) ∈ detectRobotCollisions robots := by
  intro robots
  induction robots with
  | nil => intro _ x hx; exact absurd hx (List.not_mem_nil _)
  | cons r rest ih =>
    intro hsorted x hx y hy hxa hya hpos hid
    obtain ⟨hhead, htail⟩ := List.pairwise_cons.mp hsorted
    unfold detectRobotCollisions
    rcases List.mem_cons.mp hx with hx1 | hx2
    · subst hx1
      rcases List.mem_cons.mp hy with hy1 | hy2
      · subst hy1; omega
      · refine List.mem_append.mpr (Or.inl ?_)
        rw [if_pos hxa]
        refine List.mem_map.mpr ⟨y, List.mem_filter.mpr ⟨hy2, ?_⟩, rfl⟩
        simp [hya, hpos.symm, hid]
    · rcases List.mem_cons.mp hy with hy1 | hy2
      · subst hy1
        have := hhead x hx2
        omega
      · exact List.mem_append.mpr (Or.inr (ih htail x hx2 y hy2 hxa hya hpos hid))

/-- On a list with duplicate-free ids, `findRobot` returns the member
itself. -/
theorem findRobot_of_mem (robots : List Robot)
    (hnodup : (robots.map (·.id)).Nodup) (r : Robot) (hr : r ∈ robots) :
    findRobot robots r.id = some r := by
  induction robots with
  | nil => exact absurd hr (List.not_mem_nil _)
  | cons x rest ih =>
    simp only [List.map_cons, List.nodup_cons] at hnodup
    rcases List.mem_cons.mp hr with h1 | h2
    · subst h1
      unfold findRobot
      rw [List.find?_cons_of_pos _ (by simp)]
    · unfold findRobot
      by_cases hx : x.id = r.id
      · exfalso
        exact hnodup.1 (hx ▸ List.mem_map_of_mem (·.id) h2)
      · rw [List.find?_cons_of_neg _ (by simp [hx])]
        exact ih hnodup.2 h2

/-- An id-sorted robot list has duplicate-free ids. -/
theorem sorted_ids_nodup (robots : List Robot)
    (hsorted : List.Pairwise (fun x y => x.id < y.id) robots) :
    (robots.map (·.id)).Nodup :=
  List.Pairwise.imp Nat.ne_of_lt (List.pairwise_map.mpr hsorted)

/-- The two-robot instance of scenario S3. -/
def s3Robots : List Robot :=
  [mkRobot defaultConfig 1 (3, 3, 3), mkRobot defaultConfig 2 (3, 3, 3)]

/-- The registry of scenario S3. -/
def s3Env : Env :=
  { world := { n := 5, empties := [] },
    robotPositions := [(1, (3, 3, 3)), (2, (3, 3, 3))], monsterPositions := [] }

/-- **C1 amended.**  After the sweep on an id-sorted robot list with a
duplicate-free registry: the larger member of every live co-located pair is
dead and unregistered; a robot whose id is minimal among the live robots at
its position is still alive; and in the two-robot S3 instance (ids 1 and 2
both at `(3,3,3)`) robot 1 survives at `(3,3,3)` with `robots_collided = 1`
while robot 2 is dead and unregistered. -/
theorem collision_sweep_amended (robots : List Robot) (env : Env) (rd : Nat)
    (a b : Robot)
    (hsorted : List.Pairwise (fun x y => x.id < y.id) robots)
    (hkeys : (env.robotPositions.map Prod.fst).Nodup)
    (ha : a ∈ robots) (hb : b ∈ robots)
    (haa : a.alive = true) (hba : b.alive = true)
    (hpos : a.position = b.position) (hid : a.id < b.id) :
    ((findRobot (handleRobotCollisions robots env rd).1 b.id).map (·.alive) =
      some false) ∧
    (hasKey (handleRobotCollisions robots env rd).2.1.robotPositions b.id = false) ∧
    ((∀ c ∈ robots, c.alive = true → c.position = a.position → a.id ≤ c.id) →
      (findRobot (handleRobotCollisions robots env rd).1 a.id).map (·.alive) =
        some true) ∧
    ((handleRobotCollisions s3Robots s3Env 0).1.map
        (fun r => (r.id, r.alive, r.robotsCollided, r.position)) =
      [(1, true, 1, ((3 : Int), (3 : Int), (3 : Int))),
       (2, false, 0, ((3 : Int), (3 : Int), (3 : Int)))] ∧
     (handleRobotCollisions s3Robots s3Env 0).2.1.robotPositions =
       [(1, ((3 : Int), (3 : Int), (3 : Int)))]) := by
  have hnodup := sorted_ids_nodup robots hsorted
  have hidinj : ∀ x ∈ robots, ∀ y ∈ robots, x.id = y.id → x = y := by
    intro x hx y hy hxy
    have h1 := findRobot_of_mem robots hnodup x hx
    have h2 := findRobot_of_mem robots hnodup y hy
    rw [hxy, h2] at h1
    exact (Option.some.injEq ..).mp h1.symm
  -- the minimal live robot at b's position
  have hSne : a ∈ robots.filter (fun c => c.alive && c.position == b.position) :=
    List.mem_filter.mpr ⟨ha, by simp [haa, hpos]⟩
  obtain ⟨m, hm⟩ : ∃ m,
      (robots.filter (fun c => c.alive && c.position == b.position)).argmin (·.id) =
        some m := by
    cases hargm : (robots.filter (fun c => c.alive && c.position == b.position)).argmin
        (·.id) with
    | none => exact absurd (List.argmin_eq_none.mp hargm) (List.ne_nil_of_mem hSne)
    | some m => exact ⟨m, rfl⟩
  have hmS : m ∈ robots.filter (fun c => c.alive && c.position == b.position) :=
    List.argmin_mem (Option.mem_def.mpr hm)
  have hmin : ∀ c ∈ robots.filter (fun c => c.alive && c.position == b.position),
      m.id ≤ c.id :=
    fun c hc => List.le_of_mem_argmin hc (Option.mem_def.mpr hm)
  obtain ⟨hmrobots, hmq⟩ := List.mem_filter.mp hmS
  simp only [Bool.and_eq_true, beq_iff_eq] at hmq
  have hma : m.id ≤ a.id := hmin a hSne
  have hmb : m.id < b.id := by omega
  have hmne : ∀ pr ∈ detectRobotCollisions robots, pr.2 ≠ m.id := by
    intro pr hpr heq
    obtain ⟨x, hx, y, hy, hx1, hy1, hxa, hya, hxy, hlt⟩ := detect_sound robots pr hpr
    have hym : y = m := hidinj y hy m hmrobots (by rw [hy1, heq])
    subst hym
    have hxS : x ∈ robots.filter (fun c => c.alive && c.position == b.position) :=
      List.mem_filter.mpr ⟨hx, by simp [hxa, hxy.trans hmq.2]⟩
    have := hmin x hxS
    omega
  have hpair : (m.id, b.id) ∈ detectRobotCollisions robots :=
    detect_complete robots hsorted m hmrobots b hb hmq.1 hba hmq.2 hmb
  have hmfind : (findRobot robots m.id).map (·.alive) = some true := by
    rw [findRobot_of_mem robots hnodup m hmrobots]
    simp [hmq.1]
  have hbfind : (findRobot robots b.id).isSome = true := by
    rw [findRobot_of_mem robots hnodup b hb]
    rfl
  have hdead : (findRobot (handleRobotCollisions robots env rd).1 b.id).map
      (·.alive) = some false := by
    unfold handleRobotCollisions
    exact fold_kill (detectRobotCollisions robots) (robots, env, rd) m.id b.id
      hpair hmne hmfind hbfind
  refine ⟨hdead, ?_, ?_, by decide⟩
  · unfold handleRobotCollisions at hdead ⊢
    refine fold_registry_invariant (detectRobotCollisions robots)
      (robots, env, rd) b.id hkeys ?_ hdead
    intro hcontra
    rw [findRobot_of_mem robots hnodup b hb] at hcontra
    simp [hba] at hcontra
  · intro hminA
    have hane : ∀ pr ∈ detectRobotCollisions robots, pr.2 ≠ a.id := by
      intro pr hpr heq
      obtain ⟨x, hx, y, hy, hx1, hy1, hxa, hya, hxy, hlt⟩ := detect_sound robots pr hpr
      have hya2 : y = a := hidinj y hy a ha (by rw [hy1, heq])
      subst hya2
      have := hminA x hx hxa hxy
      omega
    have hafind : (findRobot robots a.id).map (·.alive) = some true := by
      rw [findRobot_of_mem robots hnodup a ha]
      simp [haa]
    unfold handleRobotCollisions
    exact fold_alive_of_never_victim (detectRobotCollisions robots)
      (robots, env, rd) a.id hane hafind

/-- Witness for C1 amended, at the S3 instance itself (ids 1 and 2 both at
`(3,3,3)`). -/
theorem collision_sweep_amended_witness :
    (mkRobot defaultConfig 1 (3, 3, 3)) ∈ s3Robots ∧
    ((findRobot (handleRobotCollisions s3Robots s3Env 0).1
        (mkRobot defaultConfig 2 (3, 3, 3)).id).map (·.alive) = some false ∧
     hasKey (handleRobotCollisions s3Robots s3Env 0).2.1.robotPositions
       (mkRobot defaultConfig 2 (3, 3, 3)).id = false ∧
     ((∀ c ∈ s3Robots, c.alive = true →
        c.position = (mkRobot defaultConfig 1 (3, 3, 3)).position →
        (mkRobot defaultConfig 1 (3, 3, 3)).id ≤ c.id) →
      (findRobot (handleRobotCollisions s3Robots s3Env 0).1
        (mkRobot defaultConfig 1 (3, 3, 3)).id).map (·.alive) = some true) ∧
     ((handleRobotCollisions s3Robots s3Env 0).1.map
        (fun r => (r.id, r.alive, r.robotsCollided, r.position)) =
       [(1, true, 1, ((3 : Int), (3 : Int), (3 : Int))),
        (2, false, 0, ((3 : Int), (3 : Int), (3 : Int)))] ∧
      (handleRobotCollisions s3Robots s3Env 0).2.1.robotPositions =
        [(1, ((3 : Int), (3 : Int), (3 : Int)))])) :=
  ⟨by decide,
   collision_sweep_amended s3Robots s3Env 0
     (mkRobot defaultConfig 1 (3, 3, 3)) (mkRobot defaultConfig 2 (3, 3, 3))
     (by decide) (by decide) (by decide) (by decide) rfl rfl rfl (by decide)⟩

end RobotSim
